import Mathlib

/-!
# BLE adapter actions: connection and security handshake

A shallow embedding of `src/lib/actions/adapterActions.js`, and of the discovery
reducer `discoveryReducer.js` that consumes its records.

Every function of the source that takes `dispatch` and `getState` is embedded as a
function from the store state it reads (and from the outcome of each hardware call it
makes) to a `Run`: the ordered trace of what it did (records dispatched, commands
issued on an adapter, listener registrations) together with how it completed.

Conventions of the embedding

* a JavaScript reference that may be `null` or `undefined` is an `Option`;
* a hardware call takes a completion callback; the error the driver passes to that
  callback is a parameter of the embedded function (`none`: the call succeeded), and
  the effects of the callback are placed after the synchronous effects of the caller;
* reading a property of `null` or `undefined` raises a `TypeError`; inside a promise
  executor this rejects the promise, elsewhere it aborts the function;
* calls to `logger` are not part of the trace.
-/

namespace AdapterActions

/-! ## Data model -/

/-- A peer device object as delivered by the driver. -/
structure Device where
  instanceId : String
  address : String
  addressType : String
  role : Option String
  ownPeriphInitiatedPairingPending : Bool
  name : String := ""
  services : List String := []
  deriving DecidableEq, Repr

/-- Security parameters of one side of a pairing. The code reads `bond`, `mitm`, `lesc`
and `keypress`; the fields it only passes along (io capabilities, oob flag, key sizes,
key distribution) are kept together in `rest`, `none` when the object does not have them. -/
structure SecurityParams where
  bond : Bool
  mitm : Bool
  lesc : Bool
  keypress : Bool
  rest : Option (List Nat)
  deriving DecidableEq, Repr

structure EncInfo where
  ltk : List Nat
  lesc : Bool
  auth : Bool
  deriving DecidableEq, Repr

structure MasterId where
  ediv : Nat
  rand : List Nat
  deriving DecidableEq, Repr

structure EncKey where
  enc_info : EncInfo
  master_id : MasterId
  deriving DecidableEq, Repr

structure IdKey where
  id_info : List Nat
  id_addr_info : String
  deriving DecidableEq, Repr

structure SignKey where
  csrk : List Nat
  deriving DecidableEq, Repr

structure PublicKey where
  pk : List Nat
  deriving DecidableEq, Repr

/-- One half of a keyset (`keys_own` or `keys_peer`); every key may be `null`. -/
structure Keys where
  enc_key : Option EncKey
  id_key : Option IdKey
  sign_key : Option SignKey
  pk : Option PublicKey
  deriving DecidableEq, Repr

structure Keyset where
  keys_own : Option Keys
  keys_peer : Option Keys
  deriving DecidableEq, Repr

/-- The initial value of the module-level `secKeyset` object: every key is `null`. -/
def secKeyset : Keyset :=
  { keys_own := some { enc_key := none, id_key := none, sign_key := none, pk := none },
    keys_peer := some { enc_key := none, id_key := none, sign_key := none, pk := none } }

/-- The parameters of the driver's `authStatus` event. -/
structure AuthStatusParams where
  auth_status : Int
  auth_status_name : String
  bonded : Bool
  keyset : Option Keyset
  deriving DecidableEq, Repr

/-- Connection parameters as requested by a peer or sent to the hardware. -/
structure ConnectionParams where
  minConnectionInterval : Rat
  maxConnectionInterval : Rat
  slaveLatency : Rat
  connectionSupervisionTimeout : Rat
  deriving DecidableEq, Repr

/-- Modelled from the spec: `BLEEventState` is imported from `./common`, which is not
among the sources; the spec names the status enumeration used throughout as
PENDING, SUCCESS, ERROR, REJECTED. -/
inductive BLEEventState where
  | PENDING
  | SUCCESS
  | ERROR
  | REJECTED
  deriving DecidableEq, Repr

/-- The `status` field of a status record: a member of `BLEEventState`, or the plain
number the code passes in its place. -/
inductive Status where
  | state (s : BLEEventState)
  | number (n : Int)
  deriving DecidableEq, Repr

/-- A JavaScript error value. -/
inductive JsError where
  | error (message : String)
  | typeError (message : String)
  | undefined
  deriving DecidableEq, Repr

/-- The adapter object of the driver (`getState().app.adapter.api.selectedAdapter` and
the members of `api.adapters`): its `state.instanceId` and `state.port`. -/
structure Adapter where
  instanceId : String
  port : String
  deriving DecidableEq, Repr

structure VersionInfo where
  version : String
  sdBleApiVersion : String
  baudRate : Nat
  deriving DecidableEq, Repr

/-- The options object built by `openAdapter`. -/
structure OpenOptions where
  baudRate : Nat
  parity : String
  flowControl : String
  eventInterval : Nat
  logLevel : String
  enableBLE : Bool
  deriving DecidableEq, Repr

/-- The address object the driver passes with `connectTimedOut`. -/
structure DeviceAddress where
  address : String
  type : String
  deriving DecidableEq, Repr

/-- The security of a connection, as passed with `securityChanged`. -/
structure ConnectionSecurity where
  sm : Nat
  lv : Nat
  encr_key_size : Nat
  deriving DecidableEq, Repr

/-- Out-of-band data of LE Secure Connections. -/
structure OobData where
  r : List Nat
  c : List Nat
  deriving DecidableEq, Repr

/-- The keypress notification types of the driver
(`driver.BLE_GAP_KP_NOT_TYPE_PASSKEY_START` and so on). -/
inductive KeypressType where
  | PASSKEY_START
  | PASSKEY_DIGIT_IN
  | PASSKEY_DIGIT_OUT
  | PASSKEY_CLEAR
  | PASSKEY_END
  deriving DecidableEq, Repr

/-- The value of `keyTypeValues[keyType] || 0`: a number, or the member that the
object literal inherits from `Object.prototype` under that name. -/
inductive KeyTypeValue where
  | number (n : Nat)
  | inherited (name : String)
  deriving DecidableEq, Repr

/-- The `scanParams` of the options of `connect`. -/
structure ScanParameters where
  active : Bool
  interval : Rat
  window : Rat
  timeout : Rat
  deriving DecidableEq, Repr

/-- The `connParams` of the options of `connect`. -/
structure ConnectionParameters where
  min_conn_interval : Rat
  max_conn_interval : Rat
  slave_latency : Rat
  conn_sup_timeout : Rat
  deriving DecidableEq, Repr

structure ConnectOptions where
  scanParams : ScanParameters
  connParams : ConnectionParameters
  deriving DecidableEq, Repr

/-! ## Records (redux actions) -/

/-- The records built by the action creators of the module; one constructor for each
creator, with the creator's arguments. `showErrorDialog` is imported from
`./errorDialogActions`; its record is kept as the error it is given. `discoverServices`
is imported from `./deviceDetailsActions`; what is dispatched is kept as the device it
is given. -/
inductive Action where
  | adapterOpenedAction (adapter : Adapter) (versionInfo : VersionInfo)
  | adapterOpenAction (adapter : Adapter)
  | adapterClosedAction (adapter : Adapter)
  | connectionParamsUpdatedAction (device : Device)
  | connectionParamUpdateStatusAction (id : Int) (device : Device) (status : Status)
  | pairingStatusAction (id : Int) (device : Device) (status : Status)
  | authKeyStatusAction (id : Int) (device : Device) (status : Status)
  | deviceConnectAction (device : Device)
  | deviceConnectedAction (device : Device)
  | deviceAuthErrorOccuredAction (device : Device)
  | deviceAuthSuccessOccuredAction (device : Device)
  | deviceConnParamUpdateRequestAction (device : Device)
      (requestedConnectionParams : ConnectionParams)
  | passkeyDisplayAction (device : Device) (matchRequest : Bool) (passkey : String)
      (receiveKeypress : Bool)
  | authKeyRequestAction (device : Device) (keyType : String) (sendKeypress : Bool)
  | securityRequestAction (device : Device) (params : SecurityParams)
  | addBondInfo (device : Device) (params : AuthStatusParams)
  | storeSecurityPeerParamsAction (device : Device) (peerParams : SecurityParams)
  | storeSecurityOwnParamsAction (device : Device) (ownParams : Option SecurityParams)
  | showErrorDialog (error : JsError)
  | deviceDiscoveredAction (device : Device)
  | deviceConnectTimeoutAction (deviceAddress : DeviceAddress)
  | deviceSecurityRequestTimedOutAction (device : Device)
  | deviceDisconnectedAction (device : Device) (reason : Option String)
  | deviceConnectCanceledAction
  | deviceCancelConnectAction
  | lescOobRequestAction (device : Device) (ownOobData : OobData)
  | securityChangedAction (device : Device) (parameters : ConnectionSecurity)
  | keypressSentAction (eventId : Int) (device : Device) (keypressType : String)
  | keypressReceivedAction (device : Device) (keypressType : String)
  | discoverServices (device : Device)
  deriving DecidableEq, Repr

/-- The `type` discriminator of a record. -/
def Action.type : Action → String
  | .adapterOpenedAction _ _ => "ADAPTER_OPENED"
  | .adapterOpenAction _ => "ADAPTER_OPEN"
  | .adapterClosedAction _ => "ADAPTER_CLOSED"
  | .connectionParamsUpdatedAction _ => "DEVICE_CONNECTION_PARAMS_UPDATED"
  | .connectionParamUpdateStatusAction _ _ _ => "DEVICE_CONNECTION_PARAM_UPDATE_STATUS"
  | .pairingStatusAction _ _ _ => "DEVICE_PAIRING_STATUS"
  | .authKeyStatusAction _ _ _ => "DEVICE_AUTHKEY_STATUS"
  | .deviceConnectAction _ => "DEVICE_CONNECT"
  | .deviceConnectedAction _ => "DEVICE_CONNECTED"
  | .deviceAuthErrorOccuredAction _ => "DEVICE_AUTH_ERROR_OCCURED"
  | .deviceAuthSuccessOccuredAction _ => "DEVICE_AUTH_SUCCESS_OCCURED"
  | .deviceConnParamUpdateRequestAction _ _ => "DEVICE_CONNECTION_PARAM_UPDATE_REQUEST"
  | .passkeyDisplayAction _ _ _ _ => "DEVICE_PASSKEY_DISPLAY"
  | .authKeyRequestAction _ _ _ => "DEVICE_AUTHKEY_REQUEST"
  | .securityRequestAction _ _ => "DEVICE_SECURITY_REQUEST"
  | .addBondInfo _ _ => "DEVICE_ADD_BOND_INFO"
  | .storeSecurityPeerParamsAction _ _ => "DEVICE_SECURITY_STORE_PEER_PARAMS"
  | .storeSecurityOwnParamsAction _ _ => "DEVICE_SECURITY_STORE_OWN_PARAMS"
  | .showErrorDialog _ => "ERROR_DIALOG"
  | .deviceDiscoveredAction _ => "DEVICE_DISCOVERED"
  | .deviceConnectTimeoutAction _ => "DEVICE_CONNECT_TIMEOUT"
  | .deviceSecurityRequestTimedOutAction _ => "DEVICE_SECURITY_REQUEST_TIMEOUT"
  | .deviceDisconnectedAction _ _ => "DEVICE_DISCONNECTED"
  | .deviceConnectCanceledAction => "DEVICE_CONNECT_CANCELED"
  | .deviceCancelConnectAction => "DEVICE_CANCEL_CONNECT"
  | .lescOobRequestAction _ _ => "DEVICE_LESC_OOB_REQUEST"
  | .securityChangedAction _ _ => "DEVICE_SECURITY_CHANGED"
  | .keypressSentAction _ _ _ => "DEVICE_PASSKEY_KEYPRESS_SENT"
  | .keypressReceivedAction _ _ => "DEVICE_PASSKEY_KEYPRESS_RECEIVED"
  | .discoverServices _ => "DISCOVER_SERVICES"

/-- The `device` field of a record, for the records that have one. -/
def Action.device : Action → Option Device
  | .connectionParamsUpdatedAction d => some d
  | .connectionParamUpdateStatusAction _ d _ => some d
  | .pairingStatusAction _ d _ => some d
  | .authKeyStatusAction _ d _ => some d
  | .deviceConnectAction d => some d
  | .deviceConnectedAction d => some d
  | .deviceAuthErrorOccuredAction d => some d
  | .deviceAuthSuccessOccuredAction d => some d
  | .deviceConnParamUpdateRequestAction d _ => some d
  | .passkeyDisplayAction d _ _ _ => some d
  | .authKeyRequestAction d _ _ => some d
  | .securityRequestAction d _ => some d
  | .addBondInfo d _ => some d
  | .storeSecurityPeerParamsAction d _ => some d
  | .storeSecurityOwnParamsAction d _ => some d
  | .deviceDiscoveredAction d => some d
  | .deviceSecurityRequestTimedOutAction d => some d
  | .deviceDisconnectedAction d _ => some d
  | .lescOobRequestAction d _ => some d
  | .securityChangedAction d _ => some d
  | .keypressSentAction _ d _ => some d
  | .keypressReceivedAction d _ => some d
  | .discoverServices d => some d
  | _ => none

/-! ## Commands and traces -/

/-- A method call on the driver's adapter object. -/
inductive Command where
  | open_ (options : OpenOptions)
  | close
  | authenticate (instanceId : String) (securityParams : Option SecurityParams)
  | replySecParams (instanceId : String) (status : Nat)
      (securityParams : Option SecurityParams) (keyset : Option Keyset)
  | updateConnectionParameters (instanceId : String) (connectionParams : ConnectionParams)
  | connect (address : String) (type : String) (options : ConnectOptions)
  | cancelConnect
  | notifyKeypress (instanceId : String) (keypressType : KeypressType)
  | replyAuthKey (instanceId : String) (keyType : KeyTypeValue) (key : Option String)
  | encrypt (instanceId : String) (masterId : MasterId) (encInfo : EncInfo)
  | secInfoReply (instanceId : String) (encInfo : Option EncInfo)
      (idInfo : Option (List Nat))
  | replyLescDhkey (instanceId : String) (dhKey : List Nat)
  | getLescOobData (instanceId : String) (publicKey : List Nat)
  deriving DecidableEq, Repr

/-- The connection handle a command is addressed to, for the commands that have one. -/
def Command.instanceId : Command → Option String
  | .authenticate i _ => some i
  | .replySecParams i _ _ _ => some i
  | .updateConnectionParameters i _ => some i
  | .notifyKeypress i _ => some i
  | .replyAuthKey i _ _ => some i
  | .encrypt i _ _ => some i
  | .secInfoReply i _ _ => some i
  | .replyLescDhkey i _ => some i
  | .getLescOobData i _ => some i
  | _ => none

/-- One observable step of a run. -/
inductive Effect where
  | dispatch (action : Action)
  | command (adapter : Adapter) (cmd : Command)
  | removeAllListeners (adapter : Adapter)
  | on (adapter : Adapter) (event : String)
  | serialPortOpen (port : String)
  | serialPortClose (port : String)
  | setTimeout (ms : Nat)
  | callback
  deriving DecidableEq, Repr

/-- How a run ended. For a function that returns a promise: `value v` when the promise
resolved with `v`, `raised e` when it was rejected with `e`. For a plain function:
`value v` when it returned `v`, `raised e` when it threw `e`. -/
inductive Outcome (α : Type) where
  | value (v : α)
  | raised (error : JsError)
  deriving DecidableEq, Repr

/-- What a function did, in order, and how it ended. -/
structure Run (α : Type) where
  trace : List Effect
  outcome : Outcome α
  deriving DecidableEq, Repr

/-- A run without effects that ends with the value `v`. -/
def Run.pure {α : Type} (v : α) : Run α := { trace := [], outcome := .value v }

/-- A run without effects that throws (rejects with) `e`. -/
def Run.throw {α : Type} (e : JsError) : Run α := { trace := [], outcome := .raised e }

/-- A run that performs the given effects and returns. -/
def Run.emit (es : List Effect) : Run Unit := { trace := es, outcome := .value () }

/-- The promise method `.then(f)`: when the promise resolved, `f` runs on its value. -/
def Run.then_ {α β : Type} (p : Run α) (f : α → Run β) : Run β :=
  match p.outcome with
  | .value v => { trace := p.trace ++ (f v).trace, outcome := (f v).outcome }
  | .raised e => { trace := p.trace, outcome := .raised e }

/-- The promise method `.catch(f)`: when the promise was rejected, `f` runs on the error. -/
def Run.catch_ {α : Type} (p : Run α) (f : JsError → Run α) : Run α :=
  match p.outcome with
  | .value v => { trace := p.trace, outcome := .value v }
  | .raised e => { trace := p.trace ++ (f e).trace, outcome := (f e).outcome }

/-- The records of a trace, in order. -/
def records (t : List Effect) : List Action :=
  t.filterMap fun e => match e with
    | .dispatch a => some a
    | _ => none

/-- The adapter commands of a trace, in order. -/
def commands (t : List Effect) : List Command :=
  t.filterMap fun e => match e with
    | .command _ c => some c
    | _ => none

/-- The records of a trace that have the given `type`. -/
def recordsOfType (ty : String) (t : List Effect) : List Action :=
  (records t).filter fun a => a.type == ty

/-! ## `onAuthStatus` -/

/-- The guard of `onAuthStatus`:
`params.keyset && params.keyset.keys_own && params.keyset.keys_own.pk &&
 params.keyset.keys_own.enc_key && params.keyset.keys_own.id_key`. -/
def ownKeysTruthy (params : AuthStatusParams) : Bool :=
  match params.keyset with
  | none => false
  | some keyset =>
    match keyset.keys_own with
    | none => false
    | some keys_own =>
      keys_own.pk.isSome && keys_own.enc_key.isSome && keys_own.id_key.isSome

/-- Handler `onAuthStatus`. -/
def onAuthStatus (device : Device) (params : AuthStatusParams) : Run Unit :=
  if params.auth_status ≠ 0 then
    Run.emit [.dispatch (.deviceAuthErrorOccuredAction device)]
  else if !ownKeysTruthy params then
    Run.emit [.dispatch (.deviceAuthSuccessOccuredAction device)]
  else if !params.bonded then
    Run.emit [.dispatch (.deviceAuthSuccessOccuredAction device)]
  else
    Run.emit [.dispatch (.deviceAuthSuccessOccuredAction device),
              .dispatch (.addBondInfo device params)]

/-! ## Store state -/

/-- An entry of `connectionsSecParameters`: the parameters stored for one address. -/
structure SecParameters where
  peerParams : Option SecurityParams
  ownParams : Option SecurityParams
  deriving DecidableEq, Repr

/-- The `security` part of an adapter's record in the store. The two maps are keyed by
device address. -/
structure Security where
  securityParams : Option SecurityParams
  autoAcceptPairing : Bool
  bondStore : List (String × Keyset)
  connectionsSecParameters : List (String × SecParameters)
  deriving DecidableEq, Repr

/-- An adapter's record in the immutable list `app.adapter.adapters`. -/
structure AdapterRecord where
  security : Security
  deriving DecidableEq, Repr

/-- The mutable `api` object of the adapter state: the driver's adapter objects. -/
structure Api where
  adapters : List Adapter
  selectedAdapter : Option Adapter
  deriving DecidableEq, Repr

/-- The value of `getState().app.adapter`. -/
structure AdapterState where
  api : Api
  adapters : List AdapterRecord
  selectedAdapterIndex : Int
  autoConnUpdate : Bool
  ignoredDeviceAddresses : List String
  deriving DecidableEq, Repr

/-- An entry of `app.bleEvent.events`. -/
structure BleEvent where
  keypressStartSent : Option Bool
  deriving DecidableEq, Repr

/-- The value of `getState().app`, as far as this module reads it. -/
structure AppState where
  adapter : AdapterState
  events : List (Int × BleEvent)
  deriving DecidableEq, Repr

/-- The `get` of an immutable list: a negative index counts from the end, an index out
of range gives `undefined`. -/
def immutableGet {α : Type} (xs : List α) (index : Int) : Option α :=
  let i := if index < 0 then (xs.length : Int) + index else index
  if 0 ≤ i then xs.get? i.toNat else none

/-- The lookup `getState().app.adapter.getIn(['adapters', selectedAdapterIndex])`. -/
def selectedAdapterRecord (s : AppState) : Option AdapterRecord :=
  immutableGet s.adapter.adapters s.adapter.selectedAdapterIndex

/-- The lookup `getIn(['adapters', selectedAdapterIndex, 'security',
'connectionsSecParameters', address])`: `undefined` when any step is missing. -/
def connectionsSecParameters (s : AppState) (address : String) : Option SecParameters :=
  match selectedAdapterRecord s with
  | none => none
  | some r => r.security.connectionsSecParameters.lookup address

/-! ## The driver -/

/-- What the driver answers in one run: for each adapter method with a completion
callback, the error message passed to the callback (`none`: no error), and the values
of `computePublicKey()` and `computeSharedSecret()`. `notifyKeypress` answers the first
`notifyKeypress` call of a run and `notifyKeypress2` the second. -/
structure Driver where
  computePublicKey : List Nat
  authenticate : Option String
  replySecParams : Option String
  updateConnectionParameters : Except String Device
  close : Option String
  open_ : Option String
  serialPortOpen : Option String
  serialPortClose : Option String
  connect : Option String := none
  cancelConnect : Option String := none
  notifyKeypress : Option String := none
  notifyKeypress2 : Option String := none
  replyAuthKey : Option String := none
  secInfoReply : Option String := none
  computeSharedSecret : List Nat → List Nat := fun _ => []
  replyLescDhkey : Option String := none
  getLescOobData : Except String OobData := .ok { r := [], c := [] }

/-- The run of an adapter method that reports through `error => ...` with the callback
`if (error) reject(new Error(error.message)); ... resolve()`. -/
def callAdapter (adapter : Adapter) (cmd : Command) (error : Option String) : Run Unit :=
  { trace := [.command adapter cmd],
    outcome := match error with
      | some message => .raised (.error message)
      | none => .value () }

/-- The keyset passed to `replySecParams` after
`secKeyset.keys_own.pk = { pk: adapterToUse.computePublicKey() }`. -/
def secKeysetWithPk (publicKey : List Nat) : Keyset :=
  { keys_own := some { enc_key := none, id_key := none, sign_key := none,
                       pk := some { pk := publicKey } },
    keys_peer := secKeyset.keys_peer }

/-! ## Security handshake -/

/-- Handler `onAuthKeyRequest`: `s` is the store state when the handler runs. -/
def onAuthKeyRequest (s : AppState) (device : Device) (keyType : String) : Run Unit :=
  match connectionsSecParameters s device.address with
  | none => Run.throw (.typeError "Cannot read property 'peerParams' of undefined")
  | some secParameters =>
    match secParameters.peerParams with
    | none => Run.throw (.typeError "Cannot read property 'keypress' of undefined")
    | some peerParams =>
      if peerParams.keypress = true then
        match secParameters.ownParams with
        | none => Run.throw (.typeError "Cannot read property 'keypress' of undefined")
        | some ownParams =>
          Run.emit [.dispatch (.authKeyRequestAction device keyType
            (ownParams.keypress = true))]
      else
        Run.emit [.dispatch (.authKeyRequestAction device keyType false)]

/-- Function `authenticate`: the promise it returns. -/
def authenticate (s : AppState) (hw : Driver) (device : Device)
    (securityParams : Option SecurityParams) : Run Adapter :=
  match s.adapter.api.selectedAdapter with
  | none => Run.throw (.typeError "Cannot read property 'authenticate' of null")
  | some adapterToUse =>
    match hw.authenticate with
    | some message =>
      { trace := [.command adapterToUse (.authenticate device.instanceId securityParams),
                  .dispatch (.deviceAuthErrorOccuredAction device)],
        outcome := .raised (.error message) }
    | none =>
      { trace := [.command adapterToUse (.authenticate device.instanceId securityParams)],
        outcome := .value adapterToUse }

/-- Handler `onSecurityRequest`: `s` is the store state when the handler starts, `s1` the state
read by `authenticate` after the own-params record has been dispatched. The promise
of `authenticate` is dropped by the handler. -/
def onSecurityRequest (s s1 : AppState) (hw : Driver) (device : Device)
    (params : SecurityParams) : Run Unit :=
  match selectedAdapterRecord s with
  | none => Run.throw (.typeError "Cannot read property 'security' of undefined")
  | some selectedAdapter =>
    match selectedAdapter.security.securityParams with
    | none => Run.pure ()
    | some defaultSecParams =>
      if selectedAdapter.security.autoAcceptPairing then
        Run.emit ([.dispatch (.storeSecurityOwnParamsAction device (some defaultSecParams))]
          ++ (authenticate s1 hw device (some defaultSecParams)).trace)
      else
        Run.emit [.dispatch (.securityRequestAction device params)]

/-- Thunk `acceptPairing(id, device, securityParams)`, run on the store. -/
def acceptPairing (s : AppState) (hw : Driver) (id : Int) (device : Device)
    (securityParams : Option SecurityParams) : Run Unit :=
  let executor : Run Unit :=
    match s.adapter.api.selectedAdapter with
    | none => Run.throw (.error "No adapter selected!")
    | some adapterToUse =>
      if device.role = some "peripheral" then
        callAdapter adapterToUse (.authenticate device.instanceId securityParams)
          hw.authenticate
      else if device.role = some "central" then
        callAdapter adapterToUse
          (.replySecParams device.instanceId 0 securityParams
            (some (secKeysetWithPk hw.computePublicKey)))
          hw.replySecParams
      else
        Run.throw (.error "Unknown role")
  (executor.then_ fun _ =>
    Run.emit [.dispatch (.storeSecurityOwnParamsAction device securityParams),
              .dispatch (.pairingStatusAction id device (.state .PENDING))]).catch_
    fun _ => Run.emit [.dispatch (.pairingStatusAction id device (.state .ERROR))]

/-- The constant `PAIRING_NOT_SUPPORTED` of `rejectPairing`. -/
def PAIRING_NOT_SUPPORTED : Nat := 0x85

/-- Thunk `rejectPairing(id, device)`, run on the store. -/
def rejectPairing (s : AppState) (hw : Driver) (id : Int) (device : Device) : Run Unit :=
  let executor : Run Unit :=
    match s.adapter.api.selectedAdapter with
    | none => Run.throw (.error "No adapter selected!")
    | some adapterToUse =>
      if device.role = some "peripheral" then
        callAdapter adapterToUse (.authenticate device.instanceId none) hw.authenticate
      else if device.role = some "central" then
        callAdapter adapterToUse
          (.replySecParams device.instanceId PAIRING_NOT_SUPPORTED none none)
          hw.replySecParams
      else
        Run.throw (.error "Invalid role")
  (executor.then_ fun _ =>
    Run.emit [.dispatch (.pairingStatusAction id device (.state .REJECTED))]).catch_
    fun _ => Run.emit [.dispatch (.pairingStatusAction id device (.state .ERROR))]

/-- The effects of the callback given to `replySecParams` by `onSecParamsRequest`. -/
def replySecParamsFailed (device : Device) (error : Option String) : List Effect :=
  match error with
  | some _ => [.dispatch (.deviceAuthErrorOccuredAction device)]
  | none => []

/-- Handler `onSecParamsRequest`: `s` is the store state when the handler starts, `s1` the
state read after the peer-params record has been dispatched. -/
def onSecParamsRequest (s s1 : AppState) (hw : Driver) (device : Device)
    (peerParams : SecurityParams) : Run Unit :=
  match selectedAdapterRecord s with
  | none => Run.throw (.typeError "Cannot read property 'security' of undefined")
  | some selectedAdapter =>
    let defaultSecParams := selectedAdapter.security.securityParams
    let storePeer : Effect := .dispatch (.storeSecurityPeerParamsAction device peerParams)
    match s.adapter.api.selectedAdapter with
    | none =>
      { trace := [storePeer],
        outcome := .raised (.typeError "Cannot read property 'computePublicKey' of null") }
    | some adapterToUse =>
      let keyset := secKeysetWithPk hw.computePublicKey
      if device.role = some "central" then
        if device.ownPeriphInitiatedPairingPending then
          let stored : Option SecurityParams :=
            match connectionsSecParameters s1 device.address with
            | none => none
            | some secParameters => secParameters.ownParams
          let periphInitSecParams : Option SecurityParams :=
            match stored with
            | some p => some p
            | none => defaultSecParams
          Run.emit ([storePeer,
            .command adapterToUse
              (.replySecParams device.instanceId 0 periphInitSecParams (some keyset))]
            ++ replySecParamsFailed device hw.replySecParams
            ++ [.dispatch (.storeSecurityOwnParamsAction device periphInitSecParams)])
        else if selectedAdapter.security.autoAcceptPairing then
          Run.emit (storePeer :: (acceptPairing s1 hw (-1) device defaultSecParams).trace)
        else
          Run.emit [storePeer,
            .dispatch (.securityRequestAction device
              { bond := peerParams.bond, mitm := peerParams.mitm, lesc := peerParams.lesc,
                keypress := peerParams.keypress, rest := none })]
      else if device.role = some "peripheral" then
        Run.emit ([storePeer,
          .command adapterToUse (.replySecParams device.instanceId 0 none (some keyset))]
          ++ replySecParamsFailed device hw.replySecParams)
      else
        Run.emit [storePeer]

/-! ## Connection parameters -/

/-- Function `updateConnectionParams(dispatch, getState, id, device, connectionParams)`. -/
def updateConnectionParams (s : AppState) (hw : Driver) (id : Int) (device : Device)
    (connectionParams : ConnectionParams) : Run Unit :=
  let executor : Run Device :=
    match s.adapter.api.selectedAdapter with
    | none =>
      Run.throw (.typeError "Cannot read property 'updateConnectionParameters' of null")
    | some adapterToUse =>
      { trace := [.command adapterToUse
          (.updateConnectionParameters device.instanceId connectionParams)],
        outcome := match hw.updateConnectionParameters with
          | .error message => .raised (.error message)
          | .ok updatedDevice => .value updatedDevice }
  (executor.then_ fun updatedDevice =>
    Run.emit [.dispatch
      (.connectionParamUpdateStatusAction id updatedDevice (.state .SUCCESS))]).catch_
    fun error =>
      Run.emit [.dispatch (.connectionParamUpdateStatusAction id device (.state .ERROR)),
                .dispatch (.showErrorDialog error)]

/-- Handler `onConnParamUpdateRequest`; the promise of `updateConnectionParams` is dropped. -/
def onConnParamUpdateRequest (s : AppState) (hw : Driver) (device : Device)
    (requestedConnectionParams : ConnectionParams) : Run Unit :=
  if s.adapter.autoConnUpdate = true then
    let connParams : ConnectionParams :=
      { requestedConnectionParams with
        maxConnectionInterval := requestedConnectionParams.minConnectionInterval }
    Run.emit (updateConnectionParams s hw (-1) device connParams).trace
  else
    Run.emit [.dispatch
      (.deviceConnParamUpdateRequestAction device requestedConnectionParams)]

/-! ## Adapter lifecycle -/

/-- The event names `setupListeners` subscribes to, in the order of the source. -/
def listenerEvents : List String :=
  ["error", "warning", "logMessage", "stateChanged", "deviceDiscovered",
   "deviceConnected", "deviceDisconnected", "connectTimedOut", "scanTimedOut",
   "advertiseTimedOut", "securityRequestTimedOut", "connParamUpdateRequest",
   "connParamUpdate", "attMtuChanged", "characteristicValueChanged",
   "descriptorValueChanged", "securityChanged", "securityRequest", "secParamsRequest",
   "secInfoRequest", "authKeyRequest", "passkeyDisplay", "lescDhkeyRequest",
   "keyPressed", "authStatus", "status"]

/-- Function `setupListeners`: what it does on `adapterToUse` at registration time. -/
def setupListeners (adapterToUse : Adapter) : List Effect :=
  .removeAllListeners adapterToUse :: listenerEvents.map fun event => .on adapterToUse event

/-- The string method `replace(pattern, replacement)` with a string pattern: only the
first occurrence is replaced. -/
def replaceFirst (pattern replacement : List Char) : List Char → List Char
  | [] => if pattern = [] then replacement else []
  | c :: cs =>
    if pattern.isPrefixOf (c :: cs) then replacement ++ (c :: cs).drop pattern.length
    else c :: replaceFirst pattern replacement cs

/-- A serial port as listed by the `serialport` module. -/
structure Port where
  comName : String
  serialNumber : String
  deriving DecidableEq, Repr

/-- The predicate of the `find` in `validatePort`. -/
def portMatches (port : Port) (x : Adapter) : Bool :=
  x.port == port.comName ||
    x.port == String.mk (replaceFirst "tty".toList "cu".toList port.comName.toList)

/-- Function `validatePort`: `find` gives `undefined` when no adapter matches, which the test
`adapterToUse === null` lets through to `adapterToUse.state.port`. -/
def validatePort (s : AppState) (hw : Driver) (port : Port) : Run (Option Adapter) :=
  let adapterToUse := s.adapter.api.adapters.find? (portMatches port)
  let opened : Run String :=
    match adapterToUse with
    | none => Run.throw (.typeError "Cannot read property 'state' of undefined")
    | some a =>
      { trace := [.serialPortOpen a.port],
        outcome := match hw.serialPortOpen with
          | some _ => .raised
              (.error "Could not open the port. Please power cycle the device and try again.")
          | none => .value a.port }
  (opened.then_ fun serialPort =>
    ({ trace := [.serialPortClose serialPort],
       outcome := match hw.serialPortClose with
         | some _ => .raised .undefined
         | none => .value () } : Run Unit)).then_
    fun _ => Run.pure adapterToUse

/-- Function `closeSelectedAdapter`: the hardware close of the selected adapter, when
there is one, and the record of its completion. -/
def closeSelectedAdapter (s : AppState) (hw : Driver) : Run Unit :=
  let executor : Run (Option Adapter) :=
    match s.adapter.api.selectedAdapter with
    | some adapter =>
      { trace := [.command adapter .close],
        outcome := match hw.close with
          | some message => .raised (.error message)
          | none => .value (some adapter) }
    | none => Run.pure none
  (executor.then_ fun adapter =>
    match adapter with
    | some a => Run.emit [.dispatch (.adapterClosedAction a)]
    | none => Run.pure ()).catch_
    fun error => Run.emit [.dispatch (.showErrorDialog error)]

/-- Thunk `closeAdapter(callback)`: `callback` is `none` when no callback is given, otherwise
the run of the callback's body; its invocation is marked in the trace. -/
def closeAdapter (s : AppState) (hw : Driver) (callback : Option (Run Unit)) : Run Unit :=
  (closeSelectedAdapter s hw).then_ fun _ =>
    match callback with
    | some body => { trace := .callback :: body.trace, outcome := body.outcome }
    | none => Run.pure ()

/-- The `options` object that `openAdapter` passes to the hardware open. -/
def openOptions (versionInfo : VersionInfo) : OpenOptions :=
  { baudRate := versionInfo.baudRate, parity := "none", flowControl := "none",
    eventInterval := 0, logLevel := "debug", enableBLE := false }

/-- Thunk `openAdapter(port, versionInfo)`: `s` is the store state when the thunk starts,
`s1` the state when `validatePort` runs (after the close has completed). -/
def openAdapter (s s1 : AppState) (hw : Driver) (port : Port) (versionInfo : VersionInfo) :
    Run Unit :=
  let closed : Run Unit :=
    if s.adapter.api.selectedAdapter ≠ none then closeSelectedAdapter s hw
    else Run.pure ()
  ((closed.then_ fun _ => validatePort s1 hw port).then_ fun adapterToUse =>
    match adapterToUse with
    | none => Run.throw (.error ("Not able to find " ++ port.comName ++ "."))
    | some a =>
      ({ trace := [.dispatch (.adapterOpenAction a)] ++ setupListeners a ++
            [.setTimeout 500, .command a (.open_ (openOptions versionInfo))],
         outcome := match hw.open_ with
           | some message => .raised (.error message)
           | none => .value a } : Run Adapter).then_
        fun adapter => Run.emit [.dispatch (.adapterOpenedAction adapter versionInfo)]).catch_
    fun error =>
      match error with
      | .undefined => Run.throw (.typeError "Cannot read property 'message' of undefined")
      | _ => Run.pure ()

/-! ## Connecting -/

/-- The fixed `options` of `connectToDevice`. -/
def connectOptions : ConnectOptions :=
  { scanParams := { active := true, interval := 100, window := 50, timeout := 20 },
    connParams := { min_conn_interval := 7.5, max_conn_interval := 7.5, slave_latency := 0,
                    conn_sup_timeout := 4000 } }

/-- Thunk `connectToDevice(device)`. With no adapter the executor calls `reject` and
goes on: it dispatches the connect record and then throws on `adapterToUse.connect`,
which the already rejected promise ignores. -/
def connectToDevice (s : AppState) (hw : Driver) (device : Device) : Run Unit :=
  let executor : Run Unit :=
    match s.adapter.api.selectedAdapter with
    | none =>
      { trace := [.dispatch (.deviceConnectAction device)],
        outcome := .raised (.error "No adapter selected") }
    | some adapterToUse =>
      { trace := [.dispatch (.deviceConnectAction device),
                  .command adapterToUse
                    (.connect device.address device.addressType connectOptions)],
        outcome := match hw.connect with
          | some message => .raised (.error message)
          | none => .value () }
  executor.catch_ fun error => Run.emit [.dispatch (.showErrorDialog error)]

/-- Thunk `cancelConnect()`. -/
def cancelConnect (s : AppState) (hw : Driver) : Run Unit :=
  let executor : Run Unit :=
    match s.adapter.api.selectedAdapter with
    | none => Run.throw (.error "No adapter selected")
    | some adapterToUse =>
      { trace := [.dispatch .deviceCancelConnectAction, .command adapterToUse .cancelConnect],
        outcome := match hw.cancelConnect with
          | some message => .raised (.error message)
          | none => .value () }
  (executor.then_ fun _ => Run.emit [.dispatch .deviceConnectCanceledAction]).catch_
    fun error => Run.emit [.dispatch (.showErrorDialog error)]

/-- The lookup `getIn(['adapters', selectedAdapterIndex, 'security', 'bondStore',
address])`: `undefined` when any step is missing. -/
def bondStore (s : AppState) (address : String) : Option Keyset :=
  match selectedAdapterRecord s with
  | none => none
  | some r => r.security.bondStore.lookup address

/-- The lookup `bondInfo.getIn([half, 'enc_key'])` for `half` one of `keys_own`,
`keys_peer`. -/
def encKeyOf (half : Option Keys) : Option EncKey :=
  match half with
  | none => none
  | some keys => keys.enc_key

/-- Handler `onDeviceConnected`: the callback of `encrypt` only logs. The lookups
`bondInfo.getIn([...])` give `undefined` on a missing key, on which `.toJS()` throws. -/
def onDeviceConnected (s : AppState) (device : Device) : Run Unit :=
  match s.adapter.api.selectedAdapter with
  | none => Run.pure ()
  | some adapterToUse =>
    let connected : List Effect :=
      [.dispatch (.deviceConnectedAction device), .dispatch (.discoverServices device)]
    match (if device.role = some "peripheral" then bondStore s device.address else none) with
    | none => Run.emit connected
    | some bondInfo =>
      let isLesc : Bool :=
        match encKeyOf bondInfo.keys_own with
        | none => false
        | some k => k.enc_info.lesc
      match (if isLesc then encKeyOf bondInfo.keys_own else encKeyOf bondInfo.keys_peer) with
      | none => Run.throw (.typeError "Cannot read property 'toJS' of undefined")
      | some k =>
        Run.emit (.command adapterToUse (.encrypt device.instanceId k.master_id k.enc_info)
          :: connected)

/-- Handler `onConnParamUpdate`: the status record is built with the numbers `-1` for
the id and `-1` for the status. -/
def onConnParamUpdate (s : AppState) (device : Device) (connectionParams : ConnectionParams) :
    Run Unit :=
  Run.emit
    ((if device.role = some "central" ∧ s.adapter.autoConnUpdate = false then
        [.dispatch (.deviceConnParamUpdateRequestAction device connectionParams)]
      else []) ++
     [.dispatch (.connectionParamUpdateStatusAction (-1) device (.number (-1))),
      .dispatch (.connectionParamsUpdatedAction device)])

/-- Handler `onSecInfoRequest`. -/
def onSecInfoRequest (s : AppState) (hw : Driver) (device : Device) : Run Unit :=
  let reply (encInfo : Option EncInfo) (idInfo : Option (List Nat)) : Run Unit :=
    match s.adapter.api.selectedAdapter with
    | none => Run.throw (.typeError "Cannot read property 'secInfoReply' of null")
    | some adapterToUse =>
      Run.emit (.command adapterToUse (.secInfoReply device.instanceId encInfo idInfo)
        :: (match hw.secInfoReply with
            | some _ => [.dispatch (.deviceAuthErrorOccuredAction device)]
            | none => []))
  match bondStore s device.address with
  | none => reply none none
  | some bondInfo =>
    match encKeyOf bondInfo.keys_own with
    | none => Run.throw (.typeError "Cannot read property 'toJS' of undefined")
    | some encKey =>
      match bondInfo.keys_own.bind (fun keys => keys.id_key) with
      | none => Run.throw (.typeError "Cannot read property 'toJS' of undefined")
      | some idKey => reply (some encKey.enc_info) (some idKey.id_info)

/-- Handler `onPasskeyDisplay`. -/
def onPasskeyDisplay (s : AppState) (device : Device) (matchRequest : Bool)
    (passkey : String) : Run Unit :=
  match connectionsSecParameters s device.address with
  | none => Run.throw (.typeError "Cannot read property 'peerParams' of undefined")
  | some secParameters =>
    match secParameters.peerParams with
    | none => Run.throw (.typeError "Cannot read property 'keypress' of undefined")
    | some peerParams =>
      if peerParams.keypress = true then
        match secParameters.ownParams with
        | none => Run.throw (.typeError "Cannot read property 'keypress' of undefined")
        | some ownParams =>
          Run.emit [.dispatch (.passkeyDisplayAction device matchRequest passkey
            (ownParams.keypress = true))]
      else
        Run.emit [.dispatch (.passkeyDisplayAction device matchRequest passkey false)]

/-- Handler `onLescDhkeyRequest`: both commands are issued before either callback
runs; the effects of the callback of `replyLescDhkey` are placed first. -/
def onLescDhkeyRequest (s : AppState) (hw : Driver) (device : Device)
    (peerPublicKey : List Nat) (oobdRequired : Bool) : Run Unit :=
  match s.adapter.api.selectedAdapter with
  | none => Run.throw (.typeError "Cannot read property 'computeSharedSecret' of null")
  | some adapterToUse =>
    Run.emit
      ([.command adapterToUse (.replyLescDhkey device.instanceId
          (hw.computeSharedSecret peerPublicKey)),
        .command adapterToUse (.getLescOobData device.instanceId hw.computePublicKey)] ++
       (match hw.replyLescDhkey with
        | some _ => [.dispatch (.deviceAuthErrorOccuredAction device)]
        | none => []) ++
       (match hw.getLescOobData with
        | .error _ => [.dispatch (.deviceAuthErrorOccuredAction device)]
        | .ok ownOobData =>
          if oobdRequired then [.dispatch (.lescOobRequestAction device ownOobData)]
          else []))

/-! ## Replying with a key, keypress notifications -/

/-- The lookup `getState().app.bleEvent.getIn(['events', id, 'keypressStartSent'])`. -/
def keypressStartSent (s : AppState) (id : Int) : Option Bool :=
  match s.events.lookup id with
  | none => none
  | some event => event.keypressStartSent

/-- The property names every object literal inherits from `Object.prototype`. -/
def objectPrototypeNames : List String :=
  ["constructor", "hasOwnProperty", "isPrototypeOf", "propertyIsEnumerable",
   "toLocaleString", "toString", "valueOf", "__proto__", "__defineGetter__",
   "__defineSetter__", "__lookupGetter__", "__lookupSetter__"]

/-- The value `keyTypeValues[keyType] || 0` for the object literal
`{ BLE_GAP_AUTH_KEY_TYPE_PASSKEY: 1, BLE_GAP_AUTH_KEY_TYPE_OOB: 2 }`; `none` is the key
type `undefined`. A name that is not a property of the literal is looked up in
`Object.prototype`, whose members are all truthy. -/
def keyTypeInt (keyType : Option String) : KeyTypeValue :=
  match keyType with
  | none => .number 0
  | some k =>
    if k = "BLE_GAP_AUTH_KEY_TYPE_PASSKEY" then .number 1
    else if k = "BLE_GAP_AUTH_KEY_TYPE_OOB" then .number 2
    else if k ∈ objectPrototypeNames then .inherited k
    else .number 0

/-- Function `replyAuthenticationKey`. The first statements read
`adapterToUse.driver`, before the test `adapterToUse === null`; the driver's
`notifyKeypress` field answers the PASSKEY_END notification. -/
def replyAuthenticationKey (s : AppState) (hw : Driver) (id : Int) (device : Device)
    (keyType : Option String) (key : Option String) : Run Unit :=
  match s.adapter.api.selectedAdapter with
  | none => Run.throw (.typeError "Cannot read property 'driver' of null")
  | some adapterToUse =>
    let shoulSendKeypress : Bool := keypressStartSent s id = some true
    let notified : Run Unit :=
      if shoulSendKeypress then
        callAdapter adapterToUse (.notifyKeypress device.instanceId .PASSKEY_END)
          hw.notifyKeypress
      else Run.pure ()
    (notified.then_ fun _ =>
      { trace :=
          (if shoulSendKeypress then
            [.dispatch (.keypressSentAction id device "BLE_GAP_KP_NOT_TYPE_PASSKEY_END")]
           else []) ++
          (((callAdapter adapterToUse
                (.replyAuthKey device.instanceId (keyTypeInt keyType) key)
                hw.replyAuthKey).then_ fun _ =>
              Run.emit [.dispatch (.pairingStatusAction id device (.state .PENDING))]).catch_
            fun error =>
              Run.emit [.dispatch (.showErrorDialog error),
                        .dispatch (.authKeyStatusAction id device (.state .ERROR))]).trace,
        outcome := .value () }).catch_
      fun error => Run.emit [.dispatch (.showErrorDialog error)]

/-- Thunk `replyAuthKey(id, device, keyType, key)`. -/
def replyAuthKey (s : AppState) (hw : Driver) (id : Int) (device : Device)
    (keyType : Option String) (key : Option String) : Run Unit :=
  replyAuthenticationKey s hw id device keyType key

/-- Thunk `replyNumericalComparisonMatch(id, device, match)`. -/
def replyNumericalComparisonMatch (s : AppState) (hw : Driver) (id : Int) (device : Device)
    (isMatch : Bool) : Run Unit :=
  if isMatch then
    replyAuthenticationKey s hw id device (some "BLE_GAP_AUTH_KEY_TYPE_PASSKEY") none
  else
    replyAuthenticationKey s hw id device (some "BLE_GAP_AUTH_KEY_TYPE_NONE") none

/-- The chain of `if`s of `sendKeypress` from the name of a keypress type to the
driver's constant; `none` is the branch `Unknown keypress received.`. -/
def keypressTypeValue (keypressType : String) : Option KeypressType :=
  if keypressType = "BLE_GAP_KP_NOT_TYPE_PASSKEY_START" then some .PASSKEY_START
  else if keypressType = "BLE_GAP_KP_NOT_TYPE_PASSKEY_END" then some .PASSKEY_END
  else if keypressType = "BLE_GAP_KP_NOT_TYPE_PASSKEY_DIGIT_IN" then some .PASSKEY_DIGIT_IN
  else if keypressType = "BLE_GAP_KP_NOT_TYPE_PASSKEY_DIGIT_OUT" then some .PASSKEY_DIGIT_OUT
  else if keypressType = "BLE_GAP_KP_NOT_TYPE_PASSKEY_CLEAR" then some .PASSKEY_CLEAR
  else none

/-- Thunk `sendKeypress(id, device, keypressType)`. It reads `adapterToUse.driver`
before the test `adapterToUse === null`, whose branch (an error dialog and a return)
is therefore never taken when the adapter is `null`. The driver's `notifyKeypress`
field answers the PASSKEY_START notification, `notifyKeypress2` the notification of
the requested type. The thunk does not return its promise. -/
def sendKeypress (s : AppState) (hw : Driver) (id : Int) (device : Device)
    (keypressType : String) : Run Unit :=
  match s.adapter.api.selectedAdapter with
  | none => Run.throw (.typeError "Cannot read property 'driver' of null")
  | some adapterToUse =>
    let started : Run Unit :=
      if keypressStartSent s id ≠ some true then
        callAdapter adapterToUse (.notifyKeypress device.instanceId .PASSKEY_START)
          hw.notifyKeypress
      else Run.pure ()
    let requested : Run Unit :=
      match keypressTypeValue keypressType with
      | none => Run.throw (.error "Unknown keypress received.")
      | some value =>
        callAdapter adapterToUse (.notifyKeypress device.instanceId value) hw.notifyKeypress2
    Run.emit
      ((started.then_ fun _ =>
        { trace :=
            .dispatch (.keypressSentAction id device "BLE_GAP_KP_NOT_TYPE_PASSKEY_START") ::
            ((requested.then_ fun _ =>
                Run.emit [.dispatch (.keypressSentAction id device keypressType)]).catch_
              fun error => Run.emit [.dispatch (.showErrorDialog error)]).trace,
          outcome := .value () }).catch_
        fun error => Run.emit [.dispatch (.showErrorDialog error)]).trace

/-! ## Listeners -/

/-- The device events of the adapter, with the arguments their listeners receive. -/
inductive DeviceEvent where
  | deviceDiscovered (device : Device)
  | deviceConnected (device : Device)
  | deviceDisconnected (device : Device) (reason : Option String)
  | connectTimedOut (deviceAddress : DeviceAddress)
  | securityRequestTimedOut (device : Device)
  | connParamUpdateRequest (device : Device) (requestedConnectionParams : ConnectionParams)
  | connParamUpdate (device : Device) (connectionParams : ConnectionParams)
  | attMtuChanged (device : Device) (mtu : Nat)
  | securityChanged (device : Device) (connectionSecurity : ConnectionSecurity)
  | securityRequest (device : Device) (params : SecurityParams)
  | secParamsRequest (device : Device) (peerParams : SecurityParams)
  | secInfoRequest (device : Device)
  | authKeyRequest (device : Device) (keyType : String)
  | passkeyDisplay (device : Device) (matchRequest : Bool) (passkey : String)
  | lescDhkeyRequest (device : Device) (peerPublicKey : List Nat) (oobDataRequired : Bool)
  | keyPressed (device : Device) (keypressType : String)
  | authStatus (device : Device) (params : AuthStatusParams)
  deriving DecidableEq, Repr

/-- The name under which the listener of the event is registered. -/
def DeviceEvent.name : DeviceEvent → String
  | .deviceDiscovered _ => "deviceDiscovered"
  | .deviceConnected _ => "deviceConnected"
  | .deviceDisconnected _ _ => "deviceDisconnected"
  | .connectTimedOut _ => "connectTimedOut"
  | .securityRequestTimedOut _ => "securityRequestTimedOut"
  | .connParamUpdateRequest _ _ => "connParamUpdateRequest"
  | .connParamUpdate _ _ => "connParamUpdate"
  | .attMtuChanged _ _ => "attMtuChanged"
  | .securityChanged _ _ => "securityChanged"
  | .securityRequest _ _ => "securityRequest"
  | .secParamsRequest _ _ => "secParamsRequest"
  | .secInfoRequest _ => "secInfoRequest"
  | .authKeyRequest _ _ => "authKeyRequest"
  | .passkeyDisplay _ _ _ => "passkeyDisplay"
  | .lescDhkeyRequest _ _ _ => "lescDhkeyRequest"
  | .keyPressed _ _ => "keyPressed"
  | .authStatus _ _ => "authStatus"

/-- The address of the device the event refers to. -/
def DeviceEvent.address : DeviceEvent → String
  | .deviceDiscovered d => d.address
  | .deviceConnected d => d.address
  | .deviceDisconnected d _ => d.address
  | .connectTimedOut a => a.address
  | .securityRequestTimedOut d => d.address
  | .connParamUpdateRequest d _ => d.address
  | .connParamUpdate d _ => d.address
  | .attMtuChanged d _ => d.address
  | .securityChanged d _ => d.address
  | .securityRequest d _ => d.address
  | .secParamsRequest d _ => d.address
  | .secInfoRequest d => d.address
  | .authKeyRequest d _ => d.address
  | .passkeyDisplay d _ _ => d.address
  | .lescDhkeyRequest d _ _ => d.address
  | .keyPressed d _ => d.address
  | .authStatus d _ => d.address

/-- Function `handleDeviceEvent`: `handleFn` is the run of the function it is given. -/
def handleDeviceEvent (device : Device) (s : AppState) (handleFn : Run Unit) : Run Unit :=
  if !s.adapter.ignoredDeviceAddresses.contains device.address then handleFn
  else Run.pure ()

/-- The listeners that `setupListeners` registers for the device events: the run of
the listener of an event. `s` is the store state when the event arrives, `s1` the
state a handler reads after its first dispatch. -/
def listener (s s1 : AppState) (hw : Driver) : DeviceEvent → Run Unit
  | .deviceDiscovered device =>
    handleDeviceEvent device s (Run.emit [.dispatch (.deviceDiscoveredAction device)])
  | .deviceConnected device =>
    handleDeviceEvent device s (onDeviceConnected s device)
  | .deviceDisconnected device reason =>
    handleDeviceEvent device s
      (Run.emit [.dispatch (.deviceDisconnectedAction device reason)])
  | .connectTimedOut deviceAddress =>
    Run.emit [.dispatch (.deviceConnectTimeoutAction deviceAddress)]
  | .securityRequestTimedOut device =>
    handleDeviceEvent device s
      (Run.emit [.dispatch (.deviceSecurityRequestTimedOutAction device)])
  | .connParamUpdateRequest device requestedConnectionParams =>
    handleDeviceEvent device s
      (onConnParamUpdateRequest s hw device requestedConnectionParams)
  | .connParamUpdate device connectionParams =>
    handleDeviceEvent device s (onConnParamUpdate s device connectionParams)
  | .attMtuChanged device _ =>
    handleDeviceEvent device s (Run.pure ())
  | .securityChanged device connectionSecurity =>
    handleDeviceEvent device s
      (Run.emit [.dispatch (.securityChangedAction device connectionSecurity)])
  | .securityRequest device params =>
    handleDeviceEvent device s (onSecurityRequest s s1 hw device params)
  | .secParamsRequest device peerParams =>
    handleDeviceEvent device s (onSecParamsRequest s s1 hw device peerParams)
  | .secInfoRequest device =>
    handleDeviceEvent device s (onSecInfoRequest s hw device)
  | .authKeyRequest device keyType =>
    handleDeviceEvent device s (onAuthKeyRequest s device keyType)
  | .passkeyDisplay device matchRequest passkey =>
    handleDeviceEvent device s (onPasskeyDisplay s device matchRequest passkey)
  | .lescDhkeyRequest device peerPublicKey oobDataRequired =>
    handleDeviceEvent device s
      (onLescDhkeyRequest s hw device peerPublicKey oobDataRequired)
  | .keyPressed device keypressType =>
    handleDeviceEvent device s
      (Run.emit [.dispatch (.keypressReceivedAction device keypressType)])
  | .authStatus device params =>
    handleDeviceEvent device s (onAuthStatus device params)

/-! ## The discovery reducer

An embedding of `discoveryReducer.js`, for the records of the adapter actions. The
cases of its switch for the records of `discoveryActions` and for
ADAPTER_RESET_PERFORMED are not embedded: those records are not part of `Action`. -/

namespace Discovery

/-- The immutable device record that `apiHelper.getImmutableDevice` builds (module
`utils/api`): the fields the reducer reads or writes. -/
structure DiscoveredDevice where
  address : String
  name : String
  services : List String
  rssi : Int
  adData : List (String × String)
  isExpanded : Bool
  isConnecting : Bool
  connected : Bool
  deriving DecidableEq, Repr

/-- A value of the `devices` map: a device record, or the plain map that `setIn`
creates when the address has no entry, with the keys it was given. -/
inductive DeviceEntry where
  | record (device : DiscoveredDevice)
  | map (isConnecting : Option Bool) (connected : Option Bool)
  deriving DecidableEq, Repr

structure DiscoveryOptions where
  expanded : Bool
  sortByRssi : Bool
  filterString : String
  scanInterval : Nat
  scanWindow : Nat
  scanTimeout : Nat
  activeScan : Bool
  deriving DecidableEq, Repr

/-- The state of the reducer; `devices` is an ordered map from address to entry. -/
structure DiscoveryState where
  devices : List (String × DeviceEntry)
  errors : List String
  options : DiscoveryOptions
  deriving DecidableEq, Repr

def initialState : DiscoveryState :=
  { devices := [], errors := [],
    options := { expanded := false, sortByRssi := false, filterString := "",
                 scanInterval := 100, scanWindow := 20, scanTimeout := 60,
                 activeScan := true } }

/-- The functions the reducer takes from modules that are not among the sources:
`getImmutableDevice` of `utils/api`, the string search
`text.search(new RegExp(pattern, 'i'))`, which may throw, and the `sort` of an ordered
map with a comparator. -/
structure Env where
  getImmutableDevice : Device → DiscoveredDevice
  search : (text pattern : String) → Outcome Int
  sort : (DeviceEntry → DeviceEntry → Int) → List (String × DeviceEntry) →
    List (String × DeviceEntry)

/-- The `set` of an ordered map: an existing key keeps its place. -/
def setEntry (devices : List (String × DeviceEntry)) (address : String)
    (entry : DeviceEntry) : List (String × DeviceEntry) :=
  if devices.any (fun kv => kv.1 == address) then
    devices.map fun kv => if kv.1 == address then (address, entry) else kv
  else devices ++ [(address, entry)]

/-- The method `set('isConnecting', value)` of an entry. -/
def DeviceEntry.setIsConnecting (value : Bool) : DeviceEntry → DeviceEntry
  | .record device => .record { device with isConnecting := value }
  | .map _ connected => .map (some value) connected

/-- The method `set('connected', value)` of an entry. -/
def DeviceEntry.setConnected (value : Bool) : DeviceEntry → DeviceEntry
  | .record device => .record { device with connected := value }
  | .map isConnecting _ => .map isConnecting (some value)

/-- The value of `entry.isConnecting` as the map holds it. -/
def DeviceEntry.isConnecting : DeviceEntry → Option Bool
  | .record device => some device.isConnecting
  | .map isConnecting _ => isConnecting

/-- The call `state.setIn(['devices', address, 'isConnecting'], value)`. -/
def setInIsConnecting (state : DiscoveryState) (address : String) (value : Bool) :
    DiscoveryState :=
  match state.devices.lookup address with
  | some entry =>
    { state with devices := setEntry state.devices address (entry.setIsConnecting value) }
  | none =>
    { state with devices := setEntry state.devices address (.map (some value) none) }

/-- The call `state.setIn(['devices', address, 'connected'], value)`. -/
def setInConnected (state : DiscoveryState) (address : String) (value : Bool) :
    DiscoveryState :=
  match state.devices.lookup address with
  | some entry =>
    { state with devices := setEntry state.devices address (entry.setConnected value) }
  | none =>
    { state with devices := setEntry state.devices address (.map none (some value)) }

/-- The comparator of the sort in `applyFilters`; the `rssi` of a plain map is
`undefined`, with which every comparison is false. -/
def rssiComparator (dev1 dev2 : DeviceEntry) : Int :=
  match dev1, dev2 with
  | .record d1, .record d2 =>
    if d1.rssi < d2.rssi then 1 else if d1.rssi > d2.rssi then -1 else 0
  | _, _ => 0

/-- The predicate of the filter in `applyFilters`. -/
def matchesFilter (env : Env) (filterString : String) : DeviceEntry → Outcome Bool
  | .map _ _ => .raised (.typeError "Cannot read property 'search' of undefined")
  | .record device =>
    match env.search device.name filterString with
    | .raised e => .raised e
    | .value i =>
      if i ≥ 0 then .value true
      else
        match env.search device.address filterString with
        | .raised e => .raised e
        | .value j => .value (decide (j ≥ 0))

/-- The method `filter` of the ordered map with a predicate that may throw. -/
def filterEntries (p : DeviceEntry → Outcome Bool) :
    List (String × DeviceEntry) → Outcome (List (String × DeviceEntry))
  | [] => .value []
  | kv :: rest =>
    match p kv.2 with
    | .raised e => .raised e
    | .value keep =>
      match filterEntries p rest with
      | .raised e => .raised e
      | .value kept => .value (if keep then kv :: kept else kept)

def applyFilters (env : Env) (state : DiscoveryState) : Outcome DiscoveryState :=
  let filtered : Outcome DiscoveryState :=
    if state.options.filterString ≠ "" then
      match filterEntries (matchesFilter env state.options.filterString) state.devices with
      | .raised e => .raised e
      | .value devices => .value { state with devices := devices }
    else .value state
  match filtered with
  | .raised e => .raised e
  | .value state1 =>
    if state1.options.sortByRssi then
      .value { state1 with devices := env.sort rssiComparator state1.devices }
    else .value state1

/-- The call `newDevice.mergeIn(['adData'], existing)`: the entries of `existing` are
set in the `adData` of the new device. -/
def mergeAdData (adData existing : List (String × String)) : List (String × String) :=
  existing.foldl
    (fun merged kv =>
      if merged.any (fun x => x.1 == kv.1) then
        merged.map fun x => if x.1 == kv.1 then kv else x
      else merged ++ [kv])
    adData

def deviceDiscovered (env : Env) (state : DiscoveryState) (device : Device) :
    Outcome DiscoveryState :=
  let newDevice := env.getImmutableDevice device
  match state.devices.lookup device.address with
  | none =>
    applyFilters env
      { state with devices := setEntry state.devices device.address (.record newDevice) }
  | some (.map _ _) => .raised (.typeError "Cannot read property 'size' of undefined")
  | some (.record existingDevice) =>
    let named : DiscoveredDevice :=
      if existingDevice.name ≠ "" ∧ device.name = "" then
        { newDevice with name := existingDevice.name }
      else newDevice
    let withServices : DiscoveredDevice :=
      if existingDevice.services.length > 0 ∧ device.services.length = 0 then
        { named with services := existingDevice.services }
      else named
    let merged : DiscoveredDevice :=
      { withServices with
        isExpanded := existingDevice.isExpanded,
        adData := mergeAdData withServices.adData existingDevice.adData }
    applyFilters env
      { state with devices := setEntry state.devices device.address (.record merged) }

def deviceConnect (state : DiscoveryState) (device : Device) : DiscoveryState :=
  if (state.devices.lookup device.address).isSome then
    setInIsConnecting state device.address true
  else state

def deviceConnected (state : DiscoveryState) (device : Device) : DiscoveryState :=
  if (state.devices.lookup device.address).isSome then
    setInConnected (setInIsConnecting state device.address false) device.address true
  else state

def deviceDisconnected (state : DiscoveryState) (device : Device) : DiscoveryState :=
  if (state.devices.lookup device.address).isSome then
    setInConnected state device.address false
  else state

def deviceConnectTimeout (state : DiscoveryState) (deviceAddress : DeviceAddress) :
    DiscoveryState :=
  setInIsConnecting state deviceAddress.address false

def deviceCancelConnect (state : DiscoveryState) : DiscoveryState :=
  { state with
    devices := state.devices.map fun kv => (kv.1, kv.2.setIsConnecting false) }

/-- The reducer `discovery(state, action)`; `raised` when reducing throws. -/
def discovery (env : Env) (state : DiscoveryState) (action : Action) :
    Outcome DiscoveryState :=
  match action with
  | .deviceDiscoveredAction device => deviceDiscovered env state device
  | .deviceConnectAction device => .value (deviceConnect state device)
  | .deviceConnectedAction device => .value (deviceConnected state device)
  | .deviceDisconnectedAction device _ => .value (deviceDisconnected state device)
  | .deviceConnectTimeoutAction deviceAddress =>
    .value (deviceConnectTimeout state deviceAddress)
  | .deviceCancelConnectAction => .value (deviceCancelConnect state)
  | .adapterClosedAction _ => .value initialState
  | _ => .value state

end Discovery

/-! ## Predicates used in the statements -/

/-- The own half of the keyset of `params` has a public key, an encryption key and an
identity key. -/
def HasOwnKeys (params : AuthStatusParams) : Prop :=
  ∃ keyset keys_own pk enc_key id_key,
    params.keyset = some keyset ∧ keyset.keys_own = some keys_own ∧
    keys_own.pk = some pk ∧ keys_own.enc_key = some enc_key ∧
    keys_own.id_key = some id_key

/-- The step is the hardware open command. -/
def Effect.isOpen : Effect → Bool
  | .command _ (.open_ _) => true
  | _ => false

/-- The record that completes the close of `adapter`: ADAPTER_CLOSED when the hardware
close reported no error, the error dialog otherwise. -/
def closeCompletion (adapter : Adapter) (error : Option String) : Action :=
  match error with
  | none => .adapterClosedAction adapter
  | some message => .showErrorDialog (.error message)

/-- The step concerns the device `d`: it is a record whose device is `d`, or a command
for the instanceId of `d`. -/
def Effect.concerns (d : Device) : Effect → Prop
  | .dispatch a => a.device = some d
  | .command _ c => c.instanceId = some d.instanceId
  | _ => False

/-! ## Sample inputs -/

/-- A peer device in the peripheral role. -/
def samplePeripheral : Device :=
  { instanceId := "conn-1", address := "C0:FF:EE:00:00:01", addressType := "random",
    role := some "peripheral", ownPeriphInitiatedPairingPending := false }

/-- A peer device in the central role. -/
def sampleCentral : Device :=
  { instanceId := "conn-2", address := "C0:FF:EE:00:00:02", addressType := "public",
    role := some "central", ownPeriphInitiatedPairingPending := false }

def sampleSecurityParams : SecurityParams :=
  { bond := true, mitm := false, lesc := true, keypress := true, rest := some [3, 0, 7, 16] }

/-- A keyset whose own half has a public key, an encryption key and an identity key. -/
def sampleKeyset : Keyset :=
  { keys_own := some
      { enc_key := some { enc_info := { ltk := [1, 2, 3], lesc := true, auth := true },
                          master_id := { ediv := 7, rand := [9] } },
        id_key := some { id_info := [4, 5], id_addr_info := "C0:FF:EE:00:00:02" },
        sign_key := none,
        pk := some { pk := [6] } },
    keys_peer := none }

/-- An `authStatus` that succeeded, with bonding and a complete keyset. -/
def bondedSuccessParams : AuthStatusParams :=
  { auth_status := 0, auth_status_name := "BLE_GAP_SEC_STATUS_SUCCESS", bonded := true,
    keyset := some sampleKeyset }

/-- An `authStatus` that failed, although flagged bonded and with a complete keyset. -/
def bondedFailureParams : AuthStatusParams :=
  { auth_status := 133, auth_status_name := "BLE_GAP_SEC_STATUS_PAIRING_NOT_SUPP",
    bonded := true, keyset := some sampleKeyset }

def sampleAdapter : Adapter := { instanceId := "adapter-1", port := "COM1" }

def otherAdapter : Adapter := { instanceId := "adapter-3", port := "COM3" }

/-- A driver for which every call succeeds. -/
def driverOk : Driver :=
  { computePublicKey := [6], authenticate := none, replySecParams := none,
    updateConnectionParameters := .ok sampleCentral, close := none, open_ := none,
    serialPortOpen := none, serialPortClose := none }

/-- A driver whose hardware close reports an error; every other call succeeds. -/
def driverCloseFails : Driver :=
  { computePublicKey := [6], authenticate := none, replySecParams := none,
    updateConnectionParameters := .ok sampleCentral, close := some "NRF_ERROR_INTERNAL",
    open_ := none, serialPortOpen := none, serialPortClose := none }

/-- The security part of an adapter record with default parameters, auto-accept on,
and the given stored connection parameters. -/
def sampleSecurity (stored : List (String × SecParameters)) : Security :=
  { securityParams := some sampleSecurityParams, autoAcceptPairing := true,
    bondStore := [], connectionsSecParameters := stored }

/-- The store state in which no adapter is known: nothing is selected. -/
def stateEmpty : AppState :=
  { adapter :=
      { api := { adapters := [], selectedAdapter := none },
        adapters := [], selectedAdapterIndex := -1, autoConnUpdate := true,
        ignoredDeviceAddresses := [] },
    events := [] }

/-- A store state in which two adapters are known and none is selected. -/
def stateUnselected : AppState :=
  { adapter :=
      { api := { adapters := [sampleAdapter, otherAdapter], selectedAdapter := none },
        adapters := [{ security := (sampleSecurity []) }, { security := (sampleSecurity []) }],
        selectedAdapterIndex := -1, autoConnUpdate := true,
        ignoredDeviceAddresses := [] },
    events := [] }

/-- A store state with `sampleAdapter` selected, default security parameters, and
nothing stored for any device address. -/
def stateSelected : AppState :=
  { adapter :=
      { api := { adapters := [sampleAdapter, otherAdapter],
                 selectedAdapter := some sampleAdapter },
        adapters := [{ security := (sampleSecurity []) }, { security := (sampleSecurity []) }],
        selectedAdapterIndex := 0, autoConnUpdate := true,
        ignoredDeviceAddresses := [] },
    events := [] }

/-- A store state with `sampleAdapter` selected in which own and peer parameters are
stored for the address of `samplePeripheral`. -/
def stateWithStoredParams : AppState :=
  { adapter :=
      { api := { adapters := [sampleAdapter], selectedAdapter := some sampleAdapter },
        adapters := [{ security := (sampleSecurity
          [("C0:FF:EE:00:00:01",
            { peerParams := some sampleSecurityParams,
              ownParams := some sampleSecurityParams })]) }],
        selectedAdapterIndex := 0, autoConnUpdate := false,
        ignoredDeviceAddresses := [] },
    events := [] }

/-- A request for a connection interval between 20 and 40. -/
def sampleRequest : ConnectionParams :=
  { minConnectionInterval := 20, maxConnectionInterval := 40, slaveLatency := 0,
    connectionSupervisionTimeout := 4000 }

def samplePort : Port := { comName := "COM3", serialNumber := "680000001" }

def sampleVersionInfo : VersionInfo :=
  { version := "1.1.0", sdBleApiVersion := "3", baudRate := 115200 }

/-- The trace of opening `COM3` when no adapter is selected and every call succeeds. -/
def sampleOpenTrace : List Effect :=
  (openAdapter stateUnselected stateUnselected driverOk samplePort sampleVersionInfo).trace

/-- A store state with `sampleAdapter` selected in which a keypress start was sent
for pairing event 4. -/
def stateKeypressStarted : AppState :=
  { adapter := stateSelected.adapter,
    events := [(4, { keypressStartSent := some true })] }

/-- A store state with `sampleAdapter` selected in which the address of
`sampleCentral` is ignored. -/
def stateIgnoring : AppState :=
  { adapter :=
      { api := { adapters := [sampleAdapter, otherAdapter],
                 selectedAdapter := some sampleAdapter },
        adapters := [{ security := (sampleSecurity []) }, { security := (sampleSecurity []) }],
        selectedAdapterIndex := 0, autoConnUpdate := true,
        ignoredDeviceAddresses := ["C0:FF:EE:00:00:02"] },
    events := [] }

/-- A driver whose first keypress notification reports an error. -/
def driverNotifyFails : Driver :=
  { driverOk with notifyKeypress := some "NRF_ERROR_INVALID_STATE" }

/-- A driver whose `replyAuthKey` reports an error. -/
def driverReplyFails : Driver :=
  { driverOk with replyAuthKey := some "NRF_ERROR_INVALID_STATE" }

/-- A device whose role is neither central nor peripheral. -/
def sampleUnknownRole : Device :=
  { instanceId := "conn-3", address := "C0:FF:EE:00:00:03", addressType := "public",
    role := some "observer", ownPeriphInitiatedPairingPending := false }

/-- The address object of `sampleCentral`. -/
def sampleDeviceAddress : DeviceAddress :=
  { address := "C0:FF:EE:00:00:02", type := "BLE_GAP_ADDR_TYPE_PUBLIC" }

/-- A serial port that no known adapter is attached to. -/
def unknownPort : Port := { comName := "/dev/tty.usbmodem1", serialNumber := "680000002" }

/-- An environment of the discovery reducer: a plain conversion of the device, a
search that always matches at 0, a sort that keeps the order. -/
def sampleEnv : Discovery.Env :=
  { getImmutableDevice := fun device =>
      { address := device.address, name := device.name, services := device.services,
        rssi := 0, adData := [], isExpanded := false, isConnecting := false,
        connected := false },
    search := fun _ _ => .value 0,
    sort := fun _ devices => devices }

/-- A discovered device that is being connected to. -/
def sampleDiscovered : Discovery.DiscoveredDevice :=
  { address := "C0:FF:EE:00:00:01", name := "Thingy", services := ["180F"], rssi := -60,
    adData := [], isExpanded := true, isConnecting := true, connected := false }

/-- A discovery state whose only device is being connected to. -/
def stateConnecting : Discovery.DiscoveryState :=
  { Discovery.initialState with
    devices := [("C0:FF:EE:00:00:01", .record sampleDiscovered)] }

/-- A peer device in the central role for which a pairing initiated by the own
peripheral is pending. -/
def sampleCentralPending : Device :=
  { instanceId := "conn-4", address := "C0:FF:EE:00:00:04", addressType := "public",
    role := some "central", ownPeriphInitiatedPairingPending := true }

/-- A keyset of a legacy bond: the own half holds a public key, an encryption key
without the lesc flag and an identity key; every key of the peer is `null`. -/
def legacyKeysetNoPeerKey : Keyset :=
  { keys_own := some
      { enc_key := some { enc_info := { ltk := [1, 2, 3], lesc := false, auth := true },
                          master_id := { ediv := 7, rand := [9] } },
        id_key := some { id_info := [4, 5], id_addr_info := "C0:FF:EE:00:00:01" },
        sign_key := none,
        pk := some { pk := [6] } },
    keys_peer := some { enc_key := none, id_key := none, sign_key := none, pk := none } }

/-- A store state with `sampleAdapter` selected, auto-accept off, whose bond store
holds the given keyset for the address of `samplePeripheral`. -/
def stateBonded (bond : Keyset) : AppState :=
  { adapter :=
      { api := { adapters := [sampleAdapter], selectedAdapter := some sampleAdapter },
        adapters := [{ security :=
          { securityParams := some sampleSecurityParams, autoAcceptPairing := false,
            bondStore := [("C0:FF:EE:00:00:01", bond)], connectionsSecParameters := [] } }],
        selectedAdapterIndex := 0, autoConnUpdate := false,
        ignoredDeviceAddresses := [] },
    events := [] }

/-- A driver for which the computation of the OOB data reports an error. -/
def driverOobFails : Driver :=
  { driverOk with getLescOobData := .error "NRF_ERROR_INVALID_STATE" }

/-- The device of `sampleDiscovered` seen again, advertising no name and no service. -/
def sampleRediscovered : Device :=
  { instanceId := "conn-1", address := "C0:FF:EE:00:00:01", addressType := "random",
    role := none, ownPeriphInitiatedPairingPending := false, name := "", services := [] }

/-- A store state with `sampleAdapter` selected in which only the peer's parameters
are stored for the address of `samplePeripheral`: the state after
`onSecParamsRequest` stored them and before any own parameters were stored. -/
def statePeerParamsOnly : AppState :=
  { adapter :=
      { api := { adapters := [sampleAdapter], selectedAdapter := some sampleAdapter },
        adapters := [{ security := (sampleSecurity
          [("C0:FF:EE:00:00:01",
            { peerParams := some sampleSecurityParams, ownParams := none })]) }],
        selectedAdapterIndex := 0, autoConnUpdate := false,
        ignoredDeviceAddresses := [] },
    events := [] }

/-! ## Lemmas on runs and traces -/

theorem ownKeysTruthy_iff (params : AuthStatusParams) :
    ownKeysTruthy params = true ↔ HasOwnKeys params := by
  unfold ownKeysTruthy HasOwnKeys
  rcases params with ⟨st, nm, b, _ | ⟨_ | ⟨ek, ik, sk, pk⟩, kp⟩⟩
  · simp
  · simp
  · cases ek <;> cases ik <;> cases pk <;> simp

theorem Run.then_trace {α β : Type} (p : Run α) (f : α → Run β) :
    ∃ t, (p.then_ f).trace = p.trace ++ t := by
  unfold Run.then_
  cases p.outcome with
  | value v => exact ⟨(f v).trace, rfl⟩
  | raised e => exact ⟨[], by simp⟩

theorem Run.catch_trace {α : Type} (p : Run α) (f : JsError → Run α) :
    ∃ t, (p.catch_ f).trace = p.trace ++ t := by
  unfold Run.catch_
  cases p.outcome with
  | value v => exact ⟨[], by simp⟩
  | raised e => exact ⟨(f e).trace, rfl⟩

/-- A list splits in one way only around its single element that satisfies `P`. -/
theorem append_cons_unique {α : Type} (P : α → Bool) :
    ∀ (l1 l2 pre post : List α) (x y : α),
      (∀ e ∈ l1, P e = false) → (∀ e ∈ l2, P e = false) → P y = true →
      l1 ++ x :: l2 = pre ++ y :: post → pre = l1 ∧ y = x ∧ post = l2 := by
  intro l1
  induction l1 with
  | nil =>
    intro l2 pre post x y _ h2 hy h
    cases pre with
    | nil =>
      simp at h
      exact ⟨rfl, h.1.symm, h.2.symm⟩
    | cons p pre =>
      simp at h
      have hmem : y ∈ l2 := by rw [h.2]; simp
      have := h2 y hmem
      simp [hy] at this
  | cons c l1 ih =>
    intro l2 pre post x y h1 h2 hy h
    cases pre with
    | nil =>
      simp at h
      have := h1 c (by simp)
      rw [h.1] at this
      simp [hy] at this
    | cons p pre =>
      simp at h
      obtain ⟨hpre, hyx, hpost⟩ :=
        ih l2 pre post x y (fun e he => h1 e (by simp [he])) h2 hy h.2
      exact ⟨by rw [h.1, hpre], hyx, hpost⟩

theorem setupListeners_not_open (a : Adapter) :
    ∀ e ∈ setupListeners a, e.isOpen = false := by
  intro e he
  simp only [setupListeners, List.mem_cons, List.mem_map] at he
  rcases he with rfl | ⟨ev, _, rfl⟩ <;> rfl

/-- Every trace of `openAdapter` either has no hardware open command, or has exactly
one, right after the listeners were set up and the timer was started. -/
theorem openAdapter_trace_shape (s s1 : AppState) (hw : Driver) (port : Port)
    (vi : VersionInfo) :
    (∀ e ∈ (openAdapter s s1 hw port vi).trace, e.isOpen = false) ∨
    ∃ l0 y l2, (openAdapter s s1 hw port vi).trace
        = (l0 ++ (setupListeners y ++ [.setTimeout 500]))
            ++ .command y (.open_ (openOptions vi)) :: l2 ∧
      (∀ e ∈ l0, e.isOpen = false) ∧ (∀ e ∈ l2, e.isOpen = false) := by
  cases h3 : s1.adapter.api.adapters.find? (portMatches port) with
  | none =>
    left
    cases h1 : s.adapter.api.selectedAdapter <;> cases h2 : hw.close <;>
      simp [openAdapter, closeSelectedAdapter, validatePort, h1, h2, h3, Run.then_,
        Run.catch_, Run.pure, Run.emit, Run.throw, Effect.isOpen]
  | some y =>
    cases h4 : hw.serialPortOpen with
    | some m =>
      left
      cases h1 : s.adapter.api.selectedAdapter <;> cases h2 : hw.close <;>
        simp [openAdapter, closeSelectedAdapter, validatePort, h1, h2, h3, h4, Run.then_,
          Run.catch_, Run.pure, Run.emit, Run.throw, Effect.isOpen]
    | none =>
      cases h5 : hw.serialPortClose with
      | some m =>
        left
        cases h1 : s.adapter.api.selectedAdapter <;> cases h2 : hw.close <;>
          simp [openAdapter, closeSelectedAdapter, validatePort, h1, h2, h3, h4, h5,
            Run.then_, Run.catch_, Run.pure, Run.emit, Run.throw, Effect.isOpen]
      | none =>
        right
        cases h1 : s.adapter.api.selectedAdapter with
        | none =>
          refine ⟨[.serialPortOpen y.port, .serialPortClose y.port,
            .dispatch (.adapterOpenAction y)], y,
            (match hw.open_ with
              | some _ => []
              | none => [.dispatch (.adapterOpenedAction y vi)]), ?_, ?_, ?_⟩
          · cases h6 : hw.open_ <;>
            simp [openAdapter, closeSelectedAdapter, validatePort, h1, h3, h4, h5, h6,
              Run.then_, Run.catch_, Run.pure, Run.emit, Run.throw]
          · simp [Effect.isOpen]
          · cases h6 : hw.open_ <;> simp [Effect.isOpen]
        | some x =>
          refine ⟨[.command x .close, .dispatch (closeCompletion x hw.close),
            .serialPortOpen y.port, .serialPortClose y.port,
            .dispatch (.adapterOpenAction y)], y,
            (match hw.open_ with
              | some _ => []
              | none => [.dispatch (.adapterOpenedAction y vi)]), ?_, ?_, ?_⟩
          · cases h6 : hw.open_ <;> cases h2 : hw.close <;>
            simp [openAdapter, closeSelectedAdapter, validatePort, h1, h2, h3, h4, h5, h6,
              Run.then_, Run.catch_, Run.pure, Run.emit, Run.throw, closeCompletion]
          · simp [Effect.isOpen]
          · cases h6 : hw.open_ <;> simp [Effect.isOpen]

/-- When an adapter is selected, the trace of `openAdapter` starts with the hardware
close command on it and the record that the close ends with (ADAPTER_CLOSED, or the
error dialog when the close reported an error); every hardware open command in the
trace comes after these two. -/
theorem openAdapter_starts_with_close (s s1 : AppState) (hw : Driver) (port : Port)
    (versionInfo : VersionInfo) (selected : Adapter)
    (h : s.adapter.api.selectedAdapter = some selected) :
    ∃ completion : Action,
      (hw.close = none → completion = .adapterClosedAction selected) ∧
      (∀ message, hw.close = some message →
        completion = .showErrorDialog (.error message)) ∧
      (∃ rest, (openAdapter s s1 hw port versionInfo).trace
        = .command selected .close :: .dispatch completion :: rest) ∧
      ∀ pre adapter options post,
        (openAdapter s s1 hw port versionInfo).trace
          = pre ++ .command adapter (.open_ options) :: post →
        ∃ mid, pre = .command selected .close :: .dispatch completion :: mid := by
  have hclosed : (closeSelectedAdapter s hw).trace
      = [.command selected .close, .dispatch (closeCompletion selected hw.close)] := by
    cases hc : hw.close <;>
      simp [closeSelectedAdapter, h, hc, Run.then_, Run.catch_, Run.emit, closeCompletion]
  have hshape : ∃ rest, (openAdapter s s1 hw port versionInfo).trace
      = .command selected .close :: .dispatch (closeCompletion selected hw.close) :: rest := by
    unfold openAdapter
    simp only [h, ne_eq, reduceCtorEq, not_false_eq_true, if_true]
    obtain ⟨t1, h1⟩ := Run.catch_trace
      (((closeSelectedAdapter s hw).then_ fun _ => validatePort s1 hw port).then_ _) _
    obtain ⟨t2, h2⟩ := Run.then_trace
      ((closeSelectedAdapter s hw).then_ fun _ => validatePort s1 hw port) _
    obtain ⟨t3, h3⟩ := Run.then_trace (closeSelectedAdapter s hw)
      (fun _ => validatePort s1 hw port)
    refine ⟨t3 ++ t2 ++ t1, ?_⟩
    rw [h1, h2, h3, hclosed]
    simp
  refine ⟨closeCompletion selected hw.close, fun hc => by simp [closeCompletion, hc],
    fun message hc => by simp [closeCompletion, hc], hshape, ?_⟩
  intro pre adapter options post hpre
  obtain ⟨rest, hrest⟩ := hshape
  rw [hrest] at hpre
  match pre, hpre with
  | [], hpre => simp at hpre
  | [e], hpre => simp at hpre
  | e1 :: e2 :: mid, hpre =>
    simp at hpre
    exact ⟨mid, by rw [hpre.1, hpre.2.1]⟩

/-- Every step of `onSecurityRequest` for `d` concerns `d`. -/
theorem onSecurityRequest_concerns (s s1 : AppState) (hw : Driver) (d : Device)
    (params : SecurityParams) :
    ∀ e ∈ (onSecurityRequest s s1 hw d params).trace, e.concerns d := by
  unfold onSecurityRequest
  cases hr : selectedAdapterRecord s with
  | none => simp [Run.throw]
  | some r =>
    cases hp : r.security.securityParams with
    | none => simp [hp, Run.pure]
    | some p =>
      cases ha : r.security.autoAcceptPairing <;>
        cases hsel : s1.adapter.api.selectedAdapter <;>
        cases herr : hw.authenticate <;>
        simp [hp, ha, authenticate, hsel, herr, Run.emit, Run.throw, Effect.concerns,
          Action.device, Command.instanceId]

/-- Reducing records of the device `d` with a reducer that changes the stored
security parameters only at the address of the record's device leaves the parameters
stored for any other address as they were. -/
theorem foldl_reduce_frame (reduce : AppState → Action → AppState) (d : Device)
    (address : String) (hne : d.address ≠ address)
    (hreduce : ∀ st a dev, a.device = some dev → dev.address ≠ address →
      connectionsSecParameters (reduce st a) address = connectionsSecParameters st address) :
    ∀ (rs : List Action) (st : AppState), (∀ a ∈ rs, a.device = some d) →
      connectionsSecParameters (rs.foldl reduce st) address
        = connectionsSecParameters st address := by
  intro rs
  induction rs with
  | nil => intro st _; rfl
  | cons a rs ih =>
    intro st h
    rw [List.foldl_cons, ih (reduce st a) (fun b hb => h b (by simp [hb])),
      hreduce st a d (h a (by simp)) hne]

theorem records_concern (d : Device) (t : List Effect) (h : ∀ e ∈ t, e.concerns d) :
    ∀ a ∈ records t, a.device = some d := by
  intro a ha
  simp only [records, List.mem_filterMap] at ha
  obtain ⟨e, he, hea⟩ := ha
  cases e <;> simp at hea
  subst hea
  exact h _ he

/-- The listener of every device event other than `connectTimedOut` does nothing when
the address of the event's device is ignored. -/
theorem listener_ignored (s s1 : AppState) (hw : Driver) (event : DeviceEvent)
    (hname : event.name ≠ "connectTimedOut")
    (hign : event.address ∈ s.adapter.ignoredDeviceAddresses) :
    listener s s1 hw event = Run.pure () := by
  cases event <;>
    simp_all [listener, handleDeviceEvent, DeviceEvent.name, DeviceEvent.address]

/-- Looking up an address after mapping the entries is mapping the entry found. -/
theorem lookup_map_entry (f : Discovery.DeviceEntry → Discovery.DeviceEntry)
    (address : String) :
    ∀ devices : List (String × Discovery.DeviceEntry),
      (devices.map fun kv => (kv.1, f kv.2)).lookup address
        = (devices.lookup address).map f := by
  intro devices
  induction devices with
  | nil => rfl
  | cons kv rest ih =>
    obtain ⟨k, e⟩ := kv
    simp only [List.map_cons, List.lookup_cons]
    cases h : address == k <;> simp [ih]

/-- Looking up an address right after `setEntry` gives the entry that was set. -/
theorem lookup_setEntry (address : String) (entry : Discovery.DeviceEntry) :
    ∀ devices : List (String × Discovery.DeviceEntry),
      (Discovery.setEntry devices address entry).lookup address = some entry := by
  have hmap : ∀ devices : List (String × Discovery.DeviceEntry),
      devices.any (fun kv => kv.1 == address) = true →
      (devices.map fun kv => if kv.1 == address then (address, entry) else kv).lookup address
        = some entry := by
    intro devices
    induction devices with
    | nil => intro h; simp at h
    | cons kv rest ih =>
      obtain ⟨k, e⟩ := kv
      intro h
      cases hk1 : k == address with
      | true =>
        simp only [List.map_cons, hk1, if_true, List.lookup_cons, beq_self_eq_true]
      | false =>
        have hk2 : (address == k) = false := by
          have : k ≠ address := by simpa using hk1
          simpa using fun h => this h.symm
        have hrest : rest.any (fun kv => kv.1 == address) = true := by
          simpa [List.any_cons, hk1] using h
        simp only [List.map_cons, hk1, Bool.false_eq_true, if_false, List.lookup_cons, hk2]
        exact ih hrest
  have happ : ∀ devices : List (String × Discovery.DeviceEntry),
      (devices ++ [(address, entry)]).lookup address
        = (devices.lookup address).or (some entry) := by
    intro devices
    induction devices with
    | nil => simp [List.lookup]
    | cons kv rest ih =>
      obtain ⟨k, e⟩ := kv
      rw [List.cons_append, List.lookup_cons, List.lookup_cons]
      cases address == k <;> simp [ih]
  have hnone : ∀ devices : List (String × Discovery.DeviceEntry),
      devices.any (fun kv => kv.1 == address) = false → devices.lookup address = none := by
    intro devices
    induction devices with
    | nil => intro _; rfl
    | cons kv rest ih =>
      obtain ⟨k, e⟩ := kv
      intro h
      rw [List.any_cons, Bool.or_eq_false_iff] at h
      have hk2 : (address == k) = false := by
        have : k ≠ address := by simpa using h.1
        simpa using fun h => this h.symm
      rw [List.lookup_cons, hk2]
      exact ih h.2
  intro devices
  unfold Discovery.setEntry
  by_cases hany : devices.any (fun kv => kv.1 == address) = true
  · rw [if_pos hany]
    exact hmap devices hany
  · rw [if_neg hany, happ, hnone devices ((Bool.not_eq_true _).mp hany)]
    rfl

/-- With an empty filter string `applyFilters` returns a state in which every address
maps to what it mapped to, provided the sort of the ordered map does so. -/
theorem applyFilters_empty_filter (env : Discovery.Env) (state : Discovery.DiscoveryState)
    (hfilter : state.options.filterString = "")
    (hsort : ∀ cmp devices address,
      (env.sort cmp devices).lookup address = devices.lookup address) :
    ∃ state1, Discovery.applyFilters env state = .value state1 ∧
      ∀ address, state1.devices.lookup address = state.devices.lookup address := by
  by_cases hs : state.options.sortByRssi = true
  · exact ⟨{ state with devices := env.sort Discovery.rssiComparator state.devices },
      by simp [Discovery.applyFilters, hfilter, hs], fun address => hsort _ _ address⟩
  · exact ⟨state, by simp [Discovery.applyFilters, hfilter, hs], fun _ => rfl⟩

/-- With an empty filter string, what `applyFilters` returns after an entry was set
maps the address to that entry. -/
theorem applyFilters_setEntry (env : Discovery.Env) (state : Discovery.DiscoveryState)
    (address : String) (merged : Discovery.DiscoveredDevice)
    (hfilter : state.options.filterString = "")
    (hsort : ∀ cmp devices address,
      (env.sort cmp devices).lookup address = devices.lookup address)
    (P : Discovery.DiscoveredDevice → Prop) (hP : P merged) :
    ∃ state1 entry,
      Discovery.applyFilters env
          { state with devices := (Discovery.setEntry state.devices address (.record merged)) }
        = .value state1 ∧
      state1.devices.lookup address = some (.record entry) ∧ P entry := by
  obtain ⟨state1, h1, h2⟩ := applyFilters_empty_filter env
    { state with devices := (Discovery.setEntry state.devices address (.record merged)) }
    hfilter hsort
  exact ⟨state1, merged, h1, by rw [h2]; exact lookup_setEntry _ _ _, hP⟩

/-! ## Properties of `onAuthStatus` -/

/-- C1: for an `authStatus` with `auth_status = 0`, `onAuthStatus` emits exactly one
DEVICE_ADD_BOND_INFO record, carrying the device and the params, when `bonded` is set
and the own keys hold a public key, an encryption key and an identity key; in every
other case it emits no DEVICE_ADD_BOND_INFO record. -/
theorem onAuthStatus_bond_info (device : Device) (params : AuthStatusParams)
    (h : params.auth_status = 0) :
    (params.bonded = true ∧ HasOwnKeys params →
      recordsOfType "DEVICE_ADD_BOND_INFO" (onAuthStatus device params).trace
        = [.addBondInfo device params]) ∧
    (¬ (params.bonded = true ∧ HasOwnKeys params) →
      recordsOfType "DEVICE_ADD_BOND_INFO" (onAuthStatus device params).trace = []) := by
  rw [← ownKeysTruthy_iff]
  constructor
  · rintro ⟨hb, hk⟩
    simp [onAuthStatus, h, hb, hk, Run.emit, recordsOfType, records, Action.type]
  · intro hn
    by_cases hk : ownKeysTruthy params = true
    · have hb : params.bonded = false := by
        cases hbb : params.bonded
        · rfl
        · exact absurd ⟨hbb, hk⟩ hn
      simp [onAuthStatus, h, hb, hk, Run.emit, recordsOfType, records, Action.type]
    · simp [onAuthStatus, h, hk, Run.emit, recordsOfType, records, Action.type]

/-- The theorem `onAuthStatus_bond_info` at a bonded status with a complete keyset. -/
theorem onAuthStatus_bond_info_witness :
    bondedSuccessParams.auth_status = 0 ∧
    recordsOfType "DEVICE_ADD_BOND_INFO" (onAuthStatus sampleCentral bondedSuccessParams).trace
      = [.addBondInfo sampleCentral bondedSuccessParams] :=
  ⟨rfl, (onAuthStatus_bond_info sampleCentral bondedSuccessParams rfl).1
    ⟨rfl, sampleKeyset, _, _, _, _, rfl, rfl, rfl, rfl, rfl⟩⟩

/-- C10: for an `authStatus` with `auth_status` different from 0, `onAuthStatus` emits
exactly one record, DEVICE_AUTH_ERROR_OCCURED for the device, and neither
DEVICE_AUTH_SUCCESS_OCCURED nor DEVICE_ADD_BOND_INFO, whatever the keyset and the
bonded flag are. -/
theorem onAuthStatus_failure (device : Device) (params : AuthStatusParams)
    (h : params.auth_status ≠ 0) :
    (onAuthStatus device params).trace = [.dispatch (.deviceAuthErrorOccuredAction device)] ∧
    records (onAuthStatus device params).trace = [.deviceAuthErrorOccuredAction device] ∧
    (Action.deviceAuthErrorOccuredAction device).type = "DEVICE_AUTH_ERROR_OCCURED" ∧
    recordsOfType "DEVICE_AUTH_SUCCESS_OCCURED" (onAuthStatus device params).trace = [] ∧
    recordsOfType "DEVICE_ADD_BOND_INFO" (onAuthStatus device params).trace = [] := by
  simp [onAuthStatus, h, Run.emit, recordsOfType, records, Action.type]

/-- The theorem `onAuthStatus_failure` at a failed status that is bonded and has a
complete keyset. -/
theorem onAuthStatus_failure_witness :
    bondedFailureParams.auth_status ≠ 0 ∧
    records (onAuthStatus sampleCentral bondedFailureParams).trace
      = [.deviceAuthErrorOccuredAction sampleCentral] :=
  ⟨by decide, (onAuthStatus_failure sampleCentral bondedFailureParams (by decide)).2.1⟩

/-! ## Properties of the security handshake -/

/-- C2 (the code diverges from the claim): in a state that holds no security
parameters for any address, `onAuthKeyRequest` throws a `TypeError` when it reads
`secParameters.peerParams` and emits no record, for every device and key type. -/
theorem onAuthKeyRequest_without_stored_params (device : Device) (keyType : String) :
    connectionsSecParameters stateSelected device.address = none ∧
    onAuthKeyRequest stateSelected device keyType
      = { trace := [],
          outcome := .raised (.typeError "Cannot read property 'peerParams' of undefined") } ∧
    recordsOfType "DEVICE_AUTHKEY_REQUEST"
      (onAuthKeyRequest stateSelected device keyType).trace = [] := by
  have h : connectionsSecParameters stateSelected device.address = none := by
    simp [connectionsSecParameters, selectedAdapterRecord, immutableGet, stateSelected,
      sampleSecurity]
  simp [onAuthKeyRequest, h, Run.throw, recordsOfType, records]

/-- C3: for a device in the central role, with an adapter selected and a
`replySecParams` call that reports no error, `rejectPairing` issues exactly one
command, `replySecParams` with status 0x85, null security params and null keyset for
the device's instanceId, and emits exactly one DEVICE_PAIRING_STATUS record, whose
status is REJECTED; no record with status ERROR is emitted. -/
theorem rejectPairing_central (s : AppState) (hw : Driver) (id : Int) (device : Device)
    (adapter : Adapter) (hrole : device.role = some "central")
    (hsel : s.adapter.api.selectedAdapter = some adapter)
    (hok : hw.replySecParams = none) :
    (rejectPairing s hw id device).trace
      = [.command adapter (.replySecParams device.instanceId 0x85 none none),
         .dispatch (.pairingStatusAction id device (.state .REJECTED))] ∧
    commands (rejectPairing s hw id device).trace
      = [.replySecParams device.instanceId 0x85 none none] ∧
    recordsOfType "DEVICE_PAIRING_STATUS" (rejectPairing s hw id device).trace
      = [.pairingStatusAction id device (.state .REJECTED)] ∧
    Action.pairingStatusAction id device (.state .ERROR)
      ∉ records (rejectPairing s hw id device).trace := by
  simp [rejectPairing, hrole, hsel, hok, callAdapter, Run.then_, Run.catch_, Run.emit,
    commands, recordsOfType, records, Action.type, PAIRING_NOT_SUPPORTED]

/-- The theorem `rejectPairing_central` for pairing event 4 of `sampleCentral`. -/
theorem rejectPairing_central_witness :
    sampleCentral.role = some "central" ∧
    stateSelected.adapter.api.selectedAdapter = some sampleAdapter ∧
    driverOk.replySecParams = none ∧
    (rejectPairing stateSelected driverOk 4 sampleCentral).trace
      = [.command sampleAdapter (.replySecParams "conn-2" 0x85 none none),
         .dispatch (.pairingStatusAction 4 sampleCentral (.state .REJECTED))] :=
  ⟨rfl, rfl, rfl, (rejectPairing_central stateSelected driverOk 4 sampleCentral
    sampleAdapter rfl rfl rfl).1⟩

/-- C4 (the claim as stated fails): in the state with no adapter, `onSecParamsRequest`
for a device in the peripheral role throws on `selectedAdapter.security` and issues no
`replySecParams` command. -/
theorem onSecParamsRequest_peripheral_no_adapter :
    samplePeripheral.role = some "peripheral" ∧
    onSecParamsRequest stateEmpty stateEmpty driverOk samplePeripheral sampleSecurityParams
      = { trace := [],
          outcome := .raised (.typeError "Cannot read property 'security' of undefined") } ∧
    commands (onSecParamsRequest stateEmpty stateEmpty driverOk samplePeripheral
      sampleSecurityParams).trace = [] := by
  decide

/-- C4 (amended): in every state with an adapter selected (the adapter object and its
record in the store), for every peer params and every device in the peripheral role,
`onSecParamsRequest` issues exactly one command, `replySecParams` on the device's
instanceId with status 0 and a null own-parameter set, whatever is stored for the
address in `connectionsSecParameters` and whatever the default params are. -/
theorem onSecParamsRequest_peripheral (s s1 : AppState) (hw : Driver) (device : Device)
    (peerParams : SecurityParams) (adapter : Adapter) (record : AdapterRecord)
    (hrole : device.role = some "peripheral")
    (hsel : s.adapter.api.selectedAdapter = some adapter)
    (hrec : selectedAdapterRecord s = some record) :
    commands (onSecParamsRequest s s1 hw device peerParams).trace
      = [.replySecParams device.instanceId 0 none
          (some (secKeysetWithPk hw.computePublicKey))] := by
  cases herr : hw.replySecParams <;>
    simp [onSecParamsRequest, hrole, hsel, hrec, herr, replySecParamsFailed, Run.emit,
      commands]

/-- The theorem `onSecParamsRequest_peripheral` in a state that has own parameters
stored for the device's address. -/
theorem onSecParamsRequest_peripheral_witness :
    samplePeripheral.role = some "peripheral" ∧
    stateWithStoredParams.adapter.api.selectedAdapter = some sampleAdapter ∧
    selectedAdapterRecord stateWithStoredParams
      = some { security := (sampleSecurity
          [("C0:FF:EE:00:00:01",
            { peerParams := some sampleSecurityParams,
              ownParams := some sampleSecurityParams })]) } ∧
    commands (onSecParamsRequest stateWithStoredParams stateWithStoredParams driverOk
        samplePeripheral sampleSecurityParams).trace
      = [.replySecParams "conn-1" 0 none (some (secKeysetWithPk [6]))] :=
  ⟨rfl, rfl, rfl, onSecParamsRequest_peripheral stateWithStoredParams stateWithStoredParams
    driverOk samplePeripheral sampleSecurityParams sampleAdapter _ rfl rfl rfl⟩

/-! ## Properties of the connection parameter negotiation -/

/-- C5 (the claim as stated fails): with `autoConnUpdate` on and no adapter selected,
`onConnParamUpdateRequest` issues no `updateConnectionParameters` command; the rejected
promise ends in an ERROR status record and an error dialog. -/
theorem onConnParamUpdateRequest_no_adapter :
    stateUnselected.adapter.autoConnUpdate = true ∧
    stateUnselected.adapter.api.selectedAdapter = none ∧
    commands (onConnParamUpdateRequest stateUnselected driverOk sampleCentral
      sampleRequest).trace = [] ∧
    records (onConnParamUpdateRequest stateUnselected driverOk sampleCentral
      sampleRequest).trace
      = [.connectionParamUpdateStatusAction (-1) sampleCentral (.state .ERROR),
         .showErrorDialog
           (.typeError "Cannot read property 'updateConnectionParameters' of null")] := by
  decide

/-- C5 (amended): with `autoConnUpdate` on and an adapter selected,
`onConnParamUpdateRequest` issues exactly one command, `updateConnectionParameters`
for the device's instanceId, whose maxConnectionInterval is the requested
minConnectionInterval and whose other fields are the requested ones, and it emits no
DEVICE_CONNECTION_PARAM_UPDATE_REQUEST record, whether the hardware call succeeds or
fails. -/
theorem onConnParamUpdateRequest_auto (s : AppState) (hw : Driver) (device : Device)
    (requested : ConnectionParams) (adapter : Adapter)
    (hauto : s.adapter.autoConnUpdate = true)
    (hsel : s.adapter.api.selectedAdapter = some adapter) :
    commands (onConnParamUpdateRequest s hw device requested).trace
      = [.updateConnectionParameters device.instanceId
          { minConnectionInterval := requested.minConnectionInterval,
            maxConnectionInterval := requested.minConnectionInterval,
            slaveLatency := requested.slaveLatency,
            connectionSupervisionTimeout := requested.connectionSupervisionTimeout }] ∧
    recordsOfType "DEVICE_CONNECTION_PARAM_UPDATE_REQUEST"
      (onConnParamUpdateRequest s hw device requested).trace = [] := by
  cases hres : hw.updateConnectionParameters <;>
    simp [onConnParamUpdateRequest, updateConnectionParams, hauto, hsel, hres, Run.emit,
      Run.then_, Run.catch_, commands, recordsOfType, records, Action.type]

/-- The theorem `onConnParamUpdateRequest_auto` for a request with minimum 20 and
maximum 40: one command, with maximum 20. -/
theorem onConnParamUpdateRequest_auto_witness :
    stateSelected.adapter.autoConnUpdate = true ∧
    stateSelected.adapter.api.selectedAdapter = some sampleAdapter ∧
    commands (onConnParamUpdateRequest stateSelected driverOk sampleCentral
      sampleRequest).trace
      = [.updateConnectionParameters "conn-2"
          { minConnectionInterval := 20, maxConnectionInterval := 20, slaveLatency := 0,
            connectionSupervisionTimeout := 4000 }] :=
  ⟨rfl, rfl, (onConnParamUpdateRequest_auto stateSelected driverOk sampleCentral
    sampleRequest sampleAdapter rfl rfl).1⟩

/-! ## Properties of the adapter lifecycle -/

/-- C6: when no adapter is selected, `closeAdapter` resolves and its trace holds
nothing but the invocation of the callback it was given (nothing at all without a
callback): no hardware command, no ADAPTER_CLOSED record and no error-dialog record
come from the close itself. -/
theorem closeAdapter_no_adapter (s : AppState) (hw : Driver)
    (h : s.adapter.api.selectedAdapter = none) :
    closeSelectedAdapter s hw = { trace := [], outcome := .value () } ∧
    closeAdapter s hw none = { trace := [], outcome := .value () } ∧
    ∀ body : Run Unit,
      closeAdapter s hw (some body)
        = { trace := .callback :: body.trace, outcome := body.outcome } := by
  simp [closeAdapter, closeSelectedAdapter, h, Run.then_, Run.catch_, Run.pure]

/-- The theorem `closeAdapter_no_adapter` in a state with no adapter selected, with
a driver whose close would fail. -/
theorem closeAdapter_no_adapter_witness :
    stateUnselected.adapter.api.selectedAdapter = none ∧
    closeAdapter stateUnselected driverCloseFails none
      = { trace := [], outcome := .value () } :=
  ⟨rfl, (closeAdapter_no_adapter stateUnselected driverCloseFails rfl).2.1⟩

/-- C7 (the code diverges from the claim): `COM3` is opened while `sampleAdapter` is
selected and the hardware close reports an error. The promise of
`closeSelectedAdapter` resolves after its own catch showed the error dialog, so the
rejection branch of `openAdapter` is never taken: the hardware open command is issued
after the error dialog, and the trace holds no ADAPTER_CLOSED record. When the close
reports no error the trace starts with the close command and the ADAPTER_CLOSED
record, and every open command comes after them, as claimed. -/
theorem openAdapter_open_after_failed_close :
    (stateSelected.adapter.api.selectedAdapter = some sampleAdapter ∧
     driverCloseFails.close = some "NRF_ERROR_INTERNAL" ∧
     (openAdapter stateSelected stateSelected driverCloseFails samplePort
        sampleVersionInfo).trace
       = [.command sampleAdapter .close,
          .dispatch (.showErrorDialog (.error "NRF_ERROR_INTERNAL")),
          .serialPortOpen "COM3", .serialPortClose "COM3",
          .dispatch (.adapterOpenAction otherAdapter)]
         ++ setupListeners otherAdapter
         ++ [.setTimeout 500,
             .command otherAdapter
               (.open_ { baudRate := 115200, parity := "none", flowControl := "none",
                         eventInterval := 0, logLevel := "debug", enableBLE := false }),
             .dispatch (.adapterOpenedAction otherAdapter sampleVersionInfo)] ∧
     recordsOfType "ADAPTER_CLOSED"
       (openAdapter stateSelected stateSelected driverCloseFails samplePort
         sampleVersionInfo).trace = []) ∧
    ∀ (s s1 : AppState) (hw : Driver) (port : Port) (versionInfo : VersionInfo)
      (selected : Adapter),
      s.adapter.api.selectedAdapter = some selected → hw.close = none →
      (∃ rest, (openAdapter s s1 hw port versionInfo).trace
        = .command selected .close :: .dispatch (.adapterClosedAction selected) :: rest) ∧
      ∀ pre adapter options post,
        (openAdapter s s1 hw port versionInfo).trace
          = pre ++ .command adapter (.open_ options) :: post →
        ∃ mid, pre
          = .command selected .close :: .dispatch (.adapterClosedAction selected) :: mid := by
  refine ⟨by decide, ?_⟩
  intro s s1 hw port versionInfo selected h hc
  obtain ⟨completion, hok, -, hshape, horder⟩ :=
    openAdapter_starts_with_close s s1 hw port versionInfo selected h
  rw [hok hc] at hshape horder
  exact ⟨hshape, horder⟩

/-- C8: in every run of `openAdapter` that issues the hardware open command on an
adapter, the steps before the command end with the removal of that adapter's old
listeners, then the 26 subscriptions of `setupListeners` on that same adapter, in the
order of the source, then the start of the timer: every subscription is installed
before the command, and nothing is removed after the first subscription. -/
theorem openAdapter_listeners_before_open (s s1 : AppState) (hw : Driver) (port : Port)
    (versionInfo : VersionInfo) (pre post : List Effect) (adapter : Adapter)
    (options : OpenOptions)
    (h : (openAdapter s s1 hw port versionInfo).trace
      = pre ++ .command adapter (.open_ options) :: post) :
    (∃ before, pre
      = before ++
        [.removeAllListeners adapter,
         .on adapter "error", .on adapter "warning", .on adapter "logMessage",
         .on adapter "stateChanged", .on adapter "deviceDiscovered",
         .on adapter "deviceConnected", .on adapter "deviceDisconnected",
         .on adapter "connectTimedOut", .on adapter "scanTimedOut",
         .on adapter "advertiseTimedOut", .on adapter "securityRequestTimedOut",
         .on adapter "connParamUpdateRequest", .on adapter "connParamUpdate",
         .on adapter "attMtuChanged", .on adapter "characteristicValueChanged",
         .on adapter "descriptorValueChanged", .on adapter "securityChanged",
         .on adapter "securityRequest", .on adapter "secParamsRequest",
         .on adapter "secInfoRequest", .on adapter "authKeyRequest",
         .on adapter "passkeyDisplay", .on adapter "lescDhkeyRequest",
         .on adapter "keyPressed", .on adapter "authStatus", .on adapter "status",
         .setTimeout 500]) ∧
    (∃ before, pre = before ++ setupListeners adapter ++ [.setTimeout 500]) ∧
    .removeAllListeners adapter ∈ pre ∧
    ∀ event ∈ listenerEvents, .on adapter event ∈ pre := by
  have hpre : ∃ before, pre = before ++ setupListeners adapter ++ [.setTimeout 500] := by
    rcases openAdapter_trace_shape s s1 hw port versionInfo with
      hno | ⟨l0, y, l2, ht, h0, h2⟩
    · have := hno (.command adapter (.open_ options)) (by rw [h]; simp)
      simp [Effect.isOpen] at this
    · rw [ht] at h
      have hl1 : ∀ e ∈ l0 ++ (setupListeners y ++ [.setTimeout 500]),
          Effect.isOpen e = false := by
        intro e he
        simp only [List.mem_append, List.mem_singleton] at he
        rcases he with he | he | rfl
        · exact h0 e he
        · exact setupListeners_not_open y e he
        · rfl
      obtain ⟨hpre, hy, -⟩ := append_cons_unique Effect.isOpen _ _ pre post _
        (.command adapter (.open_ options)) hl1 h2 rfl h
      injection hy with hy1 hy2
      subst hy1
      exact ⟨l0, by rw [hpre]; simp⟩
  refine ⟨?_, hpre, ?_, ?_⟩
  · obtain ⟨before, hb⟩ := hpre
    refine ⟨before, ?_⟩
    rw [hb]
    simp [setupListeners, listenerEvents]
  · obtain ⟨before, hb⟩ := hpre
    rw [hb]
    simp [setupListeners]
  · intro event hev
    obtain ⟨before, hb⟩ := hpre
    rw [hb]
    simp only [setupListeners, List.mem_append, List.mem_cons, List.mem_map]
    exact Or.inl (Or.inr (Or.inr ⟨event, hev, rfl⟩))

/-- The theorem `openAdapter_listeners_before_open` on the trace of opening `COM3`:
the open command is its step 31, after the listeners of `otherAdapter`. -/
theorem openAdapter_listeners_before_open_witness :
    sampleOpenTrace
      = sampleOpenTrace.take 31
        ++ .command otherAdapter (.open_ (openOptions sampleVersionInfo))
          :: sampleOpenTrace.drop 32 ∧
    ∃ before, sampleOpenTrace.take 31
      = before ++
        [.removeAllListeners otherAdapter,
         .on otherAdapter "error", .on otherAdapter "warning", .on otherAdapter "logMessage",
         .on otherAdapter "stateChanged", .on otherAdapter "deviceDiscovered",
         .on otherAdapter "deviceConnected", .on otherAdapter "deviceDisconnected",
         .on otherAdapter "connectTimedOut", .on otherAdapter "scanTimedOut",
         .on otherAdapter "advertiseTimedOut", .on otherAdapter "securityRequestTimedOut",
         .on otherAdapter "connParamUpdateRequest", .on otherAdapter "connParamUpdate",
         .on otherAdapter "attMtuChanged", .on otherAdapter "characteristicValueChanged",
         .on otherAdapter "descriptorValueChanged", .on otherAdapter "securityChanged",
         .on otherAdapter "securityRequest", .on otherAdapter "secParamsRequest",
         .on otherAdapter "secInfoRequest", .on otherAdapter "authKeyRequest",
         .on otherAdapter "passkeyDisplay", .on otherAdapter "lescDhkeyRequest",
         .on otherAdapter "keyPressed", .on otherAdapter "authStatus",
         .on otherAdapter "status",
         .setTimeout 500] :=
  ⟨by decide, (openAdapter_listeners_before_open stateUnselected stateUnselected driverOk
    samplePort sampleVersionInfo (sampleOpenTrace.take 31) (sampleOpenTrace.drop 32)
    otherAdapter (openOptions sampleVersionInfo) (by decide)).1⟩

/-- C9: handling a `securityRequest` for a device `d`, once or twice in a row, emits
only records whose device is `d` and issues only commands for the instanceId of `d`;
no record is addressed to a device `other` with a different address, so under
reducers that change the stored security parameters only at the address of the
record's device, what is stored for the address of `other` is unchanged. -/
theorem onSecurityRequest_frame (s s1 s2 s3 : AppState) (hw hw2 : Driver)
    (d other : Device) (params params2 : SecurityParams)
    (h : d.address ≠ other.address) :
    (∀ e ∈ (onSecurityRequest s s1 hw d params).trace, e.concerns d) ∧
    (∀ a ∈ records (onSecurityRequest s s1 hw d params).trace, a.device ≠ some other) ∧
    (∀ e ∈ (onSecurityRequest s s1 hw d params).trace
        ++ (onSecurityRequest s2 s3 hw2 d params2).trace, e.concerns d) ∧
    (∀ a ∈ records ((onSecurityRequest s s1 hw d params).trace
        ++ (onSecurityRequest s2 s3 hw2 d params2).trace), a.device ≠ some other) ∧
    ∀ (reduce : AppState → Action → AppState) (st : AppState),
      (∀ st a dev, a.device = some dev → dev.address ≠ other.address →
        connectionsSecParameters (reduce st a) other.address
          = connectionsSecParameters st other.address) →
      connectionsSecParameters
          ((records ((onSecurityRequest s s1 hw d params).trace
            ++ (onSecurityRequest s2 s3 hw2 d params2).trace)).foldl reduce st)
          other.address
        = connectionsSecParameters st other.address := by
  have hne : d ≠ other := fun hd => h (by rw [hd])
  have hrec : ∀ t : List Effect, (∀ e ∈ t, e.concerns d) →
      ∀ a ∈ records t, a.device ≠ some other := by
    intro t ht a ha
    rw [records_concern d t ht a ha]
    simpa using hne
  have h1 := onSecurityRequest_concerns s s1 hw d params
  have h2 := onSecurityRequest_concerns s2 s3 hw2 d params2
  have h12 : ∀ e ∈ (onSecurityRequest s s1 hw d params).trace
      ++ (onSecurityRequest s2 s3 hw2 d params2).trace, e.concerns d := by
    intro e he
    rcases List.mem_append.mp he with he | he
    · exact h1 e he
    · exact h2 e he
  refine ⟨h1, hrec _ h1, h12, hrec _ h12, ?_⟩
  intro reduce st hreduce
  exact foldl_reduce_frame reduce d other.address h hreduce _ st (records_concern d _ h12)

/-- The theorem `onSecurityRequest_frame` for two requests of `samplePeripheral` with
auto-accept on, against `sampleCentral`. -/
theorem onSecurityRequest_frame_witness :
    samplePeripheral.address ≠ sampleCentral.address ∧
    ∀ a ∈ records ((onSecurityRequest stateSelected stateSelected driverOk samplePeripheral
          sampleSecurityParams).trace
        ++ (onSecurityRequest stateSelected stateSelected driverOk samplePeripheral
          sampleSecurityParams).trace), a.device ≠ some sampleCentral :=
  ⟨by decide, (onSecurityRequest_frame stateSelected stateSelected stateSelected
    stateSelected driverOk driverOk samplePeripheral sampleCentral sampleSecurityParams
    sampleSecurityParams (by decide)).2.2.2.1⟩

/-! ## Properties of connecting and of the key reply -/

/-- C11 (the code diverges from the claim): with no adapter selected,
`connectToDevice` ends with the error dialog for 'No adapter selected' and issues no
hardware command, but it emits the DEVICE_CONNECT record first, for every device. -/
theorem connectToDevice_no_adapter (hw : Driver) (device : Device) :
    stateUnselected.adapter.api.selectedAdapter = none ∧
    connectToDevice stateUnselected hw device
      = { trace := [.dispatch (.deviceConnectAction device),
                    .dispatch (.showErrorDialog (.error "No adapter selected"))],
          outcome := .value () } ∧
    recordsOfType "DEVICE_CONNECT" (connectToDevice stateUnselected hw device).trace
      = [.deviceConnectAction device] ∧
    commands (connectToDevice stateUnselected hw device).trace = [] := by
  simp [connectToDevice, stateUnselected, Run.catch_, Run.emit, recordsOfType, records,
    commands, Action.type]

/-- C12 (the code diverges from the claim): with no adapter selected, `replyAuthKey`
and `sendKeypress` throw a `TypeError` on `adapterToUse.driver`, before their test for
a missing adapter: nothing is dispatched, so the error 'No adapter selected!' is not
surfaced. -/
theorem replyAuthKey_sendKeypress_no_adapter (hw : Driver) (id : Int) (device : Device)
    (keyType key : Option String) (keypressType : String) :
    stateUnselected.adapter.api.selectedAdapter = none ∧
    replyAuthKey stateUnselected hw id device keyType key
      = { trace := [],
          outcome := .raised (.typeError "Cannot read property 'driver' of null") } ∧
    sendKeypress stateUnselected hw id device keypressType
      = { trace := [],
          outcome := .raised (.typeError "Cannot read property 'driver' of null") } := by
  simp [replyAuthKey, replyAuthenticationKey, sendKeypress, stateUnselected, Run.throw]

/-- C13 (the code diverges from the claim): when a keypress start was sent for the
event and the PASSKEY_END notification fails, `replyAuthKey` emits the error dialog
only: no DEVICE_PAIRING_STATUS and no DEVICE_AUTHKEY_STATUS record. When the hardware
`replyAuthKey` call fails instead, the DEVICE_AUTHKEY_STATUS record with status ERROR
is emitted. -/
theorem replyAuthKey_notify_failure_without_status :
    stateKeypressStarted.adapter.api.selectedAdapter = some sampleAdapter ∧
    keypressStartSent stateKeypressStarted 4 = some true ∧
    (replyAuthKey stateKeypressStarted driverNotifyFails 4 sampleCentral
        (some "BLE_GAP_AUTH_KEY_TYPE_PASSKEY") (some "123456")).trace
      = [.command sampleAdapter (.notifyKeypress "conn-2" .PASSKEY_END),
         .dispatch (.showErrorDialog (.error "NRF_ERROR_INVALID_STATE"))] ∧
    recordsOfType "DEVICE_PAIRING_STATUS"
      (replyAuthKey stateKeypressStarted driverNotifyFails 4 sampleCentral
        (some "BLE_GAP_AUTH_KEY_TYPE_PASSKEY") (some "123456")).trace = [] ∧
    recordsOfType "DEVICE_AUTHKEY_STATUS"
      (replyAuthKey stateKeypressStarted driverNotifyFails 4 sampleCentral
        (some "BLE_GAP_AUTH_KEY_TYPE_PASSKEY") (some "123456")).trace = [] ∧
    recordsOfType "DEVICE_AUTHKEY_STATUS"
      (replyAuthKey stateKeypressStarted driverReplyFails 4 sampleCentral
        (some "BLE_GAP_AUTH_KEY_TYPE_PASSKEY") (some "123456")).trace
      = [.authKeyStatusAction 4 sampleCentral (.state .ERROR)] := by
  decide

/-- C14 (the code diverges from the claim): for the key type 'toString', a name that
the table `keyTypeValues` inherits from `Object.prototype`, `replyAuthKey` passes the
inherited member to the hardware, not 0. The command carries 1 for
'BLE_GAP_AUTH_KEY_TYPE_PASSKEY', 2 for 'BLE_GAP_AUTH_KEY_TYPE_OOB', and 0 for
'BLE_GAP_AUTH_KEY_TYPE_NONE' and for `undefined`, and it is issued in each case. -/
theorem replyAuthKey_key_type_values :
    commands (replyAuthKey stateSelected driverOk 4 sampleCentral (some "toString")
        (some "123456")).trace
      = [.replyAuthKey "conn-2" (.inherited "toString") (some "123456")] ∧
    commands (replyAuthKey stateSelected driverOk 4 sampleCentral
        (some "BLE_GAP_AUTH_KEY_TYPE_PASSKEY") (some "123456")).trace
      = [.replyAuthKey "conn-2" (.number 1) (some "123456")] ∧
    commands (replyAuthKey stateSelected driverOk 4 sampleCentral
        (some "BLE_GAP_AUTH_KEY_TYPE_OOB") (some "123456")).trace
      = [.replyAuthKey "conn-2" (.number 2) (some "123456")] ∧
    commands (replyAuthKey stateSelected driverOk 4 sampleCentral
        (some "BLE_GAP_AUTH_KEY_TYPE_NONE") none).trace
      = [.replyAuthKey "conn-2" (.number 0) none] ∧
    commands (replyAuthKey stateSelected driverOk 4 sampleCentral none none).trace
      = [.replyAuthKey "conn-2" (.number 0) none] := by
  decide

/-- C15 (the claim as stated fails): with no adapter selected and no keypress start
sent for the event, `replyAuthKey` issues no command at all: it throws before any
hardware call. -/
theorem replyAuthKey_no_adapter_no_command :
    keypressStartSent stateUnselected 4 = none ∧
    replyAuthKey stateUnselected driverOk 4 sampleCentral
        (some "BLE_GAP_AUTH_KEY_TYPE_PASSKEY") (some "123456")
      = { trace := [],
          outcome := .raised (.typeError "Cannot read property 'driver' of null") } := by
  decide

/-- C15 (amended): for every `replyAuthKey` call with an adapter selected: if the
event's `keypressStartSent` flag is true, the PASSKEY_END notification is issued first
and the hardware `replyAuthKey` command follows it when the notification reported no
error, and is not issued when it reported one; if the flag is not true, no
`notifyKeypress` command is issued and `replyAuthKey` is the only command. -/
theorem replyAuthKey_keypress_end_order (s : AppState) (hw : Driver) (id : Int)
    (device : Device) (keyType key : Option String) (adapter : Adapter)
    (hsel : s.adapter.api.selectedAdapter = some adapter) :
    (keypressStartSent s id = some true →
      (hw.notifyKeypress = none →
        commands (replyAuthKey s hw id device keyType key).trace
          = [.notifyKeypress device.instanceId .PASSKEY_END,
             .replyAuthKey device.instanceId (keyTypeInt keyType) key]) ∧
      (∀ message, hw.notifyKeypress = some message →
        commands (replyAuthKey s hw id device keyType key).trace
          = [.notifyKeypress device.instanceId .PASSKEY_END])) ∧
    (keypressStartSent s id ≠ some true →
      commands (replyAuthKey s hw id device keyType key).trace
        = [.replyAuthKey device.instanceId (keyTypeInt keyType) key]) := by
  refine ⟨fun hflag => ⟨fun hok => ?_, fun message herr => ?_⟩, fun hflag => ?_⟩
  · cases hr : hw.replyAuthKey <;>
      simp [replyAuthKey, replyAuthenticationKey, hsel, hflag, hok, hr, callAdapter,
        Run.then_, Run.catch_, Run.emit, Run.pure, commands]
  · simp [replyAuthKey, replyAuthenticationKey, hsel, hflag, herr, callAdapter,
        Run.then_, Run.catch_, Run.emit, Run.pure, commands]
  · cases hr : hw.replyAuthKey <;>
      simp [replyAuthKey, replyAuthenticationKey, hsel, hflag, hr, callAdapter,
        Run.then_, Run.catch_, Run.emit, Run.pure, commands]

/-- The theorem `replyAuthKey_keypress_end_order` for pairing event 4, for which a
keypress start was sent, with a driver whose calls succeed. -/
theorem replyAuthKey_keypress_end_order_witness :
    stateKeypressStarted.adapter.api.selectedAdapter = some sampleAdapter ∧
    keypressStartSent stateKeypressStarted 4 = some true ∧
    driverOk.notifyKeypress = none ∧
    commands (replyAuthKey stateKeypressStarted driverOk 4 sampleCentral
        (some "BLE_GAP_AUTH_KEY_TYPE_PASSKEY") (some "123456")).trace
      = [.notifyKeypress "conn-2" .PASSKEY_END,
         .replyAuthKey "conn-2" (.number 1) (some "123456")] :=
  ⟨rfl, rfl, rfl, ((replyAuthKey_keypress_end_order stateKeypressStarted driverOk 4
    sampleCentral (some "BLE_GAP_AUTH_KEY_TYPE_PASSKEY") (some "123456") sampleAdapter
    rfl).1 rfl).1 rfl⟩

/-! ## Properties of the discovery reducer and of the listeners -/

/-- C16 (the claim as stated fails): reducing DEVICE_CANCEL_CONNECT in a state whose
device is being connected to sets its `isConnecting` flag to false; reducing
DEVICE_CONNECT_CANCELED changes nothing. -/
theorem discovery_cancel_connect_clears :
    (stateConnecting.devices.lookup "C0:FF:EE:00:00:01").map
        Discovery.DeviceEntry.isConnecting = some (some true) ∧
    Discovery.discovery sampleEnv stateConnecting .deviceCancelConnectAction
      = .value { stateConnecting with
          devices := [("C0:FF:EE:00:00:01",
            .record { sampleDiscovered with isConnecting := false })] } ∧
    Discovery.discovery sampleEnv stateConnecting .deviceConnectCanceledAction
      = .value stateConnecting := by
  decide

/-- C16 (amended): for every discovery state, reducing the DEVICE_CANCEL_CONNECT
record, which `cancelConnect` emits before it issues the hardware cancel, sets the
`isConnecting` flag of every device to false and changes nothing else (the same
addresses in the same order, every other field as it was), whatever the hardware
cancel reports later; reducing DEVICE_CONNECT_CANCELED leaves the state unchanged. -/
theorem discovery_cancel_connect (env : Discovery.Env) (state : Discovery.DiscoveryState) :
    ∃ state1,
      Discovery.discovery env state .deviceCancelConnectAction = .value state1 ∧
      state1.devices.map Prod.fst = state.devices.map Prod.fst ∧
      state1.errors = state.errors ∧ state1.options = state.options ∧
      (∀ address entry, state1.devices.lookup address = some entry →
        entry.isConnecting = some false) ∧
      (∀ address, state1.devices.lookup address
        = (state.devices.lookup address).map (Discovery.DeviceEntry.setIsConnecting false)) ∧
      (∀ device : Discovery.DiscoveredDevice,
        Discovery.DeviceEntry.setIsConnecting false (.record device)
          = .record { device with isConnecting := false }) ∧
      Discovery.discovery env state .deviceConnectCanceledAction = .value state ∧
      ∀ (s : AppState) (hw : Driver) (adapter : Adapter),
        s.adapter.api.selectedAdapter = some adapter →
        ∃ rest, (cancelConnect s hw).trace
          = .dispatch .deviceCancelConnectAction :: .command adapter .cancelConnect :: rest := by
  refine ⟨Discovery.deviceCancelConnect state, rfl, ?_, rfl, rfl, ?_, ?_, fun _ => rfl,
    rfl, ?_⟩
  · simp [Discovery.deviceCancelConnect, List.map_map, Function.comp_def]
  · intro address entry h
    simp only [Discovery.deviceCancelConnect] at h
    rw [lookup_map_entry] at h
    cases hl : state.devices.lookup address with
    | none => simp [hl] at h
    | some e =>
      simp [hl] at h
      subst h
      cases e <;> rfl
  · intro address
    simp only [Discovery.deviceCancelConnect]
    rw [lookup_map_entry]
  · intro s hw adapter hsel
    cases hc : hw.cancelConnect <;>
      simp [cancelConnect, hsel, hc, Run.then_, Run.catch_, Run.emit]

/-- C17 (the code diverges from the claim): the listener of `connectTimedOut` does not
go through `handleDeviceEvent`: for an ignored address it still emits the
DEVICE_CONNECT_TIMEOUT record. The listener of every other device event does nothing
for an ignored address, and for an address that is not ignored it is the run of the
event's handler. -/
theorem listener_connectTimedOut_ignored :
    sampleDeviceAddress.address ∈ stateIgnoring.adapter.ignoredDeviceAddresses ∧
    listener stateIgnoring stateIgnoring driverOk (.connectTimedOut sampleDeviceAddress)
      = { trace := [.dispatch (.deviceConnectTimeoutAction sampleDeviceAddress)],
          outcome := .value () } ∧
    (∀ (s s1 : AppState) (hw : Driver) (event : DeviceEvent),
      event.name ≠ "connectTimedOut" →
      event.address ∈ s.adapter.ignoredDeviceAddresses →
      listener s s1 hw event = { trace := [], outcome := .value () }) ∧
    (∀ (s s1 : AppState) (hw : Driver) (device : Device),
      device.address ∉ s.adapter.ignoredDeviceAddresses →
      (listener s s1 hw (.deviceConnected device) = onDeviceConnected s device) ∧
      (∀ p, listener s s1 hw (.connParamUpdateRequest device p)
        = onConnParamUpdateRequest s hw device p) ∧
      (∀ p, listener s s1 hw (.connParamUpdate device p) = onConnParamUpdate s device p) ∧
      (∀ p, listener s s1 hw (.securityRequest device p)
        = onSecurityRequest s s1 hw device p) ∧
      (∀ p, listener s s1 hw (.secParamsRequest device p)
        = onSecParamsRequest s s1 hw device p) ∧
      (listener s s1 hw (.secInfoRequest device) = onSecInfoRequest s hw device) ∧
      (∀ k, listener s s1 hw (.authKeyRequest device k) = onAuthKeyRequest s device k) ∧
      (∀ m k, listener s s1 hw (.passkeyDisplay device m k)
        = onPasskeyDisplay s device m k) ∧
      (∀ k o, listener s s1 hw (.lescDhkeyRequest device k o)
        = onLescDhkeyRequest s hw device k o) ∧
      (∀ p, listener s s1 hw (.authStatus device p) = onAuthStatus device p)) := by
  refine ⟨by decide, by decide, ?_, ?_⟩
  · intro s s1 hw event hname hign
    exact listener_ignored s s1 hw event hname hign
  · intro s s1 hw device hnot
    simp [listener, handleDeviceEvent, hnot]

/-- C18: for every callback given to `closeAdapter` and every outcome of the hardware
close, the trace is the close attempt followed by one invocation of the callback:
with an adapter selected the attempt is the hardware close command on it, then the
ADAPTER_CLOSED record when the close reported no error, or the error-dialog record
when it reported one; with no adapter selected the attempt is empty. An
ADAPTER_CLOSED record is thus emitted exactly when the hardware close succeeded and
an error-dialog record exactly when it failed, each at most once. -/
theorem closeAdapter_callback_once (s : AppState) (hw : Driver) (body : Run Unit) :
    (∀ adapter, s.adapter.api.selectedAdapter = some adapter → hw.close = none →
      (closeAdapter s hw (some body)).trace
        = .command adapter .close :: .dispatch (.adapterClosedAction adapter) ::
          .callback :: body.trace) ∧
    (∀ adapter message, s.adapter.api.selectedAdapter = some adapter →
      hw.close = some message →
      (closeAdapter s hw (some body)).trace
        = .command adapter .close :: .dispatch (.showErrorDialog (.error message)) ::
          .callback :: body.trace) ∧
    (s.adapter.api.selectedAdapter = none →
      (closeAdapter s hw (some body)).trace = .callback :: body.trace) ∧
    (closeAdapter s hw (some body)).trace
      = (closeSelectedAdapter s hw).trace ++ .callback :: body.trace ∧
    (closeAdapter s hw (some body)).outcome = body.outcome ∧
    Effect.callback ∉ (closeSelectedAdapter s hw).trace ∧
    (recordsOfType "ADAPTER_CLOSED" (closeSelectedAdapter s hw).trace ≠ [] ↔
      ∃ adapter, s.adapter.api.selectedAdapter = some adapter ∧ hw.close = none) ∧
    (recordsOfType "ERROR_DIALOG" (closeSelectedAdapter s hw).trace ≠ [] ↔
      ∃ adapter message,
        s.adapter.api.selectedAdapter = some adapter ∧ hw.close = some message) ∧
    (recordsOfType "ADAPTER_CLOSED" (closeSelectedAdapter s hw).trace).length ≤ 1 ∧
    (recordsOfType "ERROR_DIALOG" (closeSelectedAdapter s hw).trace).length ≤ 1 := by
  cases hs : s.adapter.api.selectedAdapter <;> cases hc : hw.close <;>
    simp [closeAdapter, closeSelectedAdapter, hs, hc, Run.then_, Run.catch_, Run.emit,
      Run.pure, recordsOfType, records, Action.type]

/-- C19: for a device whose role is neither 'central' nor 'peripheral',
`acceptPairing` and `rejectPairing` issue no command (no `authenticate`, no
`replySecParams`), emit no DEVICE_SECURITY_STORE_OWN_PARAMS record, and emit exactly
one record, DEVICE_PAIRING_STATUS with status ERROR. -/
theorem pairing_unknown_role (s : AppState) (hw : Driver) (id : Int) (device : Device)
    (securityParams : Option SecurityParams)
    (hc : device.role ≠ some "central") (hp : device.role ≠ some "peripheral") :
    (acceptPairing s hw id device securityParams).trace
      = [.dispatch (.pairingStatusAction id device (.state .ERROR))] ∧
    (rejectPairing s hw id device).trace
      = [.dispatch (.pairingStatusAction id device (.state .ERROR))] ∧
    commands (acceptPairing s hw id device securityParams).trace = [] ∧
    commands (rejectPairing s hw id device).trace = [] ∧
    recordsOfType "DEVICE_SECURITY_STORE_OWN_PARAMS"
      (acceptPairing s hw id device securityParams).trace = [] ∧
    recordsOfType "DEVICE_SECURITY_STORE_OWN_PARAMS" (rejectPairing s hw id device).trace = [] ∧
    recordsOfType "DEVICE_PAIRING_STATUS" (acceptPairing s hw id device securityParams).trace
      = [.pairingStatusAction id device (.state .ERROR)] ∧
    recordsOfType "DEVICE_PAIRING_STATUS" (rejectPairing s hw id device).trace
      = [.pairingStatusAction id device (.state .ERROR)] := by
  cases hs : s.adapter.api.selectedAdapter <;>
    simp [acceptPairing, rejectPairing, hs, hc, hp, Run.then_, Run.catch_, Run.emit,
      Run.throw, commands, recordsOfType, records, Action.type]

/-- The theorem `pairing_unknown_role` for a device with the role 'observer'. -/
theorem pairing_unknown_role_witness :
    sampleUnknownRole.role ≠ some "central" ∧ sampleUnknownRole.role ≠ some "peripheral" ∧
    (acceptPairing stateSelected driverOk 4 sampleUnknownRole
        (some sampleSecurityParams)).trace
      = [.dispatch (.pairingStatusAction 4 sampleUnknownRole (.state .ERROR))] ∧
    (rejectPairing stateSelected driverOk 4 sampleUnknownRole).trace
      = [.dispatch (.pairingStatusAction 4 sampleUnknownRole (.state .ERROR))] :=
  ⟨by decide, by decide,
    (pairing_unknown_role stateSelected driverOk 4 sampleUnknownRole
      (some sampleSecurityParams) (by decide) (by decide)).1,
    (pairing_unknown_role stateSelected driverOk 4 sampleUnknownRole
      (some sampleSecurityParams) (by decide) (by decide)).2.1⟩

/-- C20: for a port whose `comName` is the port of no known adapter, neither as it is
nor after the first 'tty' is replaced by 'cu', `validatePort` is rejected without
opening the serial port and passes no adapter on, and `openAdapter` emits neither
ADAPTER_OPEN nor ADAPTER_OPENED, makes no step of `setupListeners` and issues no
hardware open command. -/
theorem openAdapter_port_not_found (s s1 : AppState) (hw : Driver) (port : Port)
    (versionInfo : VersionInfo)
    (h : ∀ a ∈ s1.adapter.api.adapters,
      a.port ≠ port.comName ∧
      a.port ≠ String.mk (replaceFirst "tty".toList "cu".toList port.comName.toList)) :
    (validatePort s1 hw port).trace = [] ∧
    (∃ error, (validatePort s1 hw port).outcome = .raised error) ∧
    recordsOfType "ADAPTER_OPEN" (openAdapter s s1 hw port versionInfo).trace = [] ∧
    recordsOfType "ADAPTER_OPENED" (openAdapter s s1 hw port versionInfo).trace = [] ∧
    (∀ e ∈ (openAdapter s s1 hw port versionInfo).trace, e.isOpen = false) ∧
    (∀ a, Effect.removeAllListeners a ∉ (openAdapter s s1 hw port versionInfo).trace) ∧
    (∀ a event, Effect.on a event ∉ (openAdapter s s1 hw port versionInfo).trace) := by
  have hfind : s1.adapter.api.adapters.find? (portMatches port) = none := by
    rw [List.find?_eq_none]
    intro a ha hp
    obtain ⟨h1, h2⟩ := h a ha
    unfold portMatches at hp
    rw [Bool.or_eq_true, beq_iff_eq, beq_iff_eq] at hp
    rcases hp with hp | hp
    · exact h1 hp
    · exact h2 hp
  cases hs : s.adapter.api.selectedAdapter <;> cases hc : hw.close <;>
    simp [openAdapter, closeSelectedAdapter, validatePort, hfind, hs, hc, Run.then_,
      Run.catch_, Run.emit, Run.pure, Run.throw, recordsOfType, records, Action.type,
      Effect.isOpen]

/-- The theorem `openAdapter_port_not_found` for a port that is known under neither
name, opened while `sampleAdapter` is selected: the trace is the close alone. -/
theorem openAdapter_port_not_found_witness :
    (∀ a ∈ stateSelected.adapter.api.adapters,
      a.port ≠ unknownPort.comName ∧
      a.port ≠ String.mk
        (replaceFirst "tty".toList "cu".toList unknownPort.comName.toList)) ∧
    (∃ error, (validatePort stateSelected driverOk unknownPort).outcome = .raised error) ∧
    recordsOfType "ADAPTER_OPEN"
      (openAdapter stateSelected stateSelected driverOk unknownPort sampleVersionInfo).trace
      = [] :=
  ⟨by decide,
    (openAdapter_port_not_found stateSelected stateSelected driverOk unknownPort
      sampleVersionInfo (by decide)).2.1,
    (openAdapter_port_not_found stateSelected stateSelected driverOk unknownPort
      sampleVersionInfo (by decide)).2.2.1⟩

/-! ## Properties of the keypress flag -/

/-- C21 (the code diverges from the claim): in a state that stores the peer's
parameters, with the keypress flag set, and no own parameters for the device's
address, `onAuthKeyRequest` and `onPasskeyDisplay` throw on `ownParams.keypress` and
emit no record, where the claim gives a record with the flag false. Whenever the
peer's keypress flag is off or own parameters are stored too, both handlers emit
their record, the flag is true exactly when both keypress flags are true, and it is
the same value in both records. -/
theorem keypress_flag_own_params_missing :
    (connectionsSecParameters statePeerParamsOnly samplePeripheral.address
       = some { peerParams := some sampleSecurityParams, ownParams := none } ∧
     sampleSecurityParams.keypress = true ∧
     onAuthKeyRequest statePeerParamsOnly samplePeripheral "BLE_GAP_AUTH_KEY_TYPE_PASSKEY"
       = { trace := [],
           outcome := .raised (.typeError "Cannot read property 'keypress' of undefined") } ∧
     onPasskeyDisplay statePeerParamsOnly samplePeripheral false "123456"
       = { trace := [],
           outcome := .raised (.typeError "Cannot read property 'keypress' of undefined") }) ∧
    ∀ (s : AppState) (device : Device) (keyType : String) (matchRequest : Bool)
      (passkey : String) (secParameters : SecParameters) (peerParams : SecurityParams),
      connectionsSecParameters s device.address = some secParameters →
      secParameters.peerParams = some peerParams →
      (peerParams.keypress = false ∨ ∃ ownParams, secParameters.ownParams = some ownParams) →
      ∃ flag : Bool,
        (flag = true ↔ peerParams.keypress = true ∧
          ∃ ownParams, secParameters.ownParams = some ownParams ∧ ownParams.keypress = true) ∧
        onAuthKeyRequest s device keyType
          = { trace := [.dispatch (.authKeyRequestAction device keyType flag)],
              outcome := .value () } ∧
        onPasskeyDisplay s device matchRequest passkey
          = { trace := [.dispatch (.passkeyDisplayAction device matchRequest passkey flag)],
              outcome := .value () } := by
  refine ⟨by decide, ?_⟩
  intro s device keyType matchRequest passkey secParameters peerParams h hp hcase
  rcases hcase with hk | ⟨ownParams, ho⟩
  · refine ⟨false, by simp [hk], ?_, ?_⟩
    · simp [onAuthKeyRequest, h, hp, hk, Run.emit]
    · simp [onPasskeyDisplay, h, hp, hk, Run.emit]
  · refine ⟨peerParams.keypress && ownParams.keypress, by simp [ho], ?_, ?_⟩
    · cases hk : peerParams.keypress <;>
        simp [onAuthKeyRequest, h, hp, ho, hk, Run.emit]
    · cases hk : peerParams.keypress <;>
        simp [onPasskeyDisplay, h, hp, ho, hk, Run.emit]

/-! ## Properties of the security request handlers -/

/-- C22 (the claim as stated fails): in a state whose adapter record has default
security params and auto-accept on while no adapter object is selected,
`onSecurityRequest` emits the DEVICE_SECURITY_STORE_OWN_PARAMS record and issues no
`authenticate` command: `authenticate` throws on the missing adapter. -/
theorem onSecurityRequest_auto_accept_no_adapter :
    selectedAdapterRecord stateUnselected = some { security := (sampleSecurity []) } ∧
    (sampleSecurity []).securityParams = some sampleSecurityParams ∧
    (sampleSecurity []).autoAcceptPairing = true ∧
    stateUnselected.adapter.api.selectedAdapter = none ∧
    (onSecurityRequest stateUnselected stateUnselected driverOk samplePeripheral
        sampleSecurityParams).trace
      = [.dispatch (.storeSecurityOwnParamsAction samplePeripheral
          (some sampleSecurityParams))] ∧
    commands (onSecurityRequest stateUnselected stateUnselected driverOk samplePeripheral
        sampleSecurityParams).trace = [] := by
  decide

/-- C22 (amended): when the adapter's record in the store has default security
params, `onSecurityRequest` with `autoAcceptPairing` on and an adapter object
selected emits one DEVICE_SECURITY_STORE_OWN_PARAMS record carrying the default
params, issues one `authenticate` command with them and emits no
DEVICE_SECURITY_REQUEST record; with `autoAcceptPairing` off its whole trace is one
DEVICE_SECURITY_REQUEST record carrying the requested params unchanged, and it issues
no command. -/
theorem onSecurityRequest_auto_accept (s s1 : AppState) (hw : Driver) (device : Device)
    (params : SecurityParams) (record : AdapterRecord) (defaultSecParams : SecurityParams)
    (hrec : selectedAdapterRecord s = some record)
    (hdef : record.security.securityParams = some defaultSecParams) :
    (record.security.autoAcceptPairing = true →
      ∀ adapter, s1.adapter.api.selectedAdapter = some adapter →
      recordsOfType "DEVICE_SECURITY_STORE_OWN_PARAMS"
          (onSecurityRequest s s1 hw device params).trace
        = [.storeSecurityOwnParamsAction device (some defaultSecParams)] ∧
      commands (onSecurityRequest s s1 hw device params).trace
        = [.authenticate device.instanceId (some defaultSecParams)] ∧
      recordsOfType "DEVICE_SECURITY_REQUEST"
          (onSecurityRequest s s1 hw device params).trace = []) ∧
    (record.security.autoAcceptPairing = false →
      (onSecurityRequest s s1 hw device params).trace
        = [.dispatch (.securityRequestAction device params)] ∧
      recordsOfType "DEVICE_SECURITY_REQUEST"
          (onSecurityRequest s s1 hw device params).trace
        = [.securityRequestAction device params] ∧
      commands (onSecurityRequest s s1 hw device params).trace = []) := by
  constructor
  · intro ha adapter hsel
    cases herr : hw.authenticate <;>
      simp [onSecurityRequest, authenticate, hrec, hdef, hsel, ha, herr, Run.emit,
        recordsOfType, records, commands, Action.type]
  · intro ha
    simp [onSecurityRequest, hrec, hdef, ha, Run.emit, recordsOfType, records, commands,
      Action.type]

/-- The theorem `onSecurityRequest_auto_accept` with auto-accept on (`stateSelected`)
and with auto-accept off (`stateBonded`). -/
theorem onSecurityRequest_auto_accept_witness :
    (selectedAdapterRecord stateSelected = some { security := (sampleSecurity []) } ∧
     (sampleSecurity []).autoAcceptPairing = true ∧
     stateSelected.adapter.api.selectedAdapter = some sampleAdapter ∧
     commands (onSecurityRequest stateSelected stateSelected driverOk samplePeripheral
        { sampleSecurityParams with mitm := true }).trace
       = [.authenticate "conn-1" (some sampleSecurityParams)]) ∧
    (onSecurityRequest (stateBonded sampleKeyset) (stateBonded sampleKeyset) driverOk
        samplePeripheral { sampleSecurityParams with mitm := true }).trace
      = [.dispatch (.securityRequestAction samplePeripheral
          { sampleSecurityParams with mitm := true })] :=
  ⟨⟨rfl, rfl, rfl,
    ((onSecurityRequest_auto_accept stateSelected stateSelected driverOk samplePeripheral
      { sampleSecurityParams with mitm := true } { security := (sampleSecurity []) }
      sampleSecurityParams rfl rfl).1 rfl sampleAdapter rfl).2.1⟩,
   ((onSecurityRequest_auto_accept (stateBonded sampleKeyset) (stateBonded sampleKeyset)
      driverOk samplePeripheral { sampleSecurityParams with mitm := true }
      { security :=
          { securityParams := some sampleSecurityParams, autoAcceptPairing := false,
            bondStore := [("C0:FF:EE:00:00:01", sampleKeyset)],
            connectionsSecParameters := [] } }
      sampleSecurityParams rfl rfl).2 rfl).1⟩

/-- C23 (the claim as stated fails): for a central-role device with
`ownPeriphInitiatedPairingPending` set and no adapter known, `onSecParamsRequest`
throws on `selectedAdapter.security` before it replies: no command is issued. -/
theorem onSecParamsRequest_pending_no_adapter :
    sampleCentralPending.role = some "central" ∧
    sampleCentralPending.ownPeriphInitiatedPairingPending = true ∧
    onSecParamsRequest stateEmpty stateEmpty driverOk sampleCentralPending sampleSecurityParams
      = { trace := [],
          outcome := .raised (.typeError "Cannot read property 'security' of undefined") } := by
  decide

/-- C23 (amended): with an adapter selected, for every central-role device with
`ownPeriphInitiatedPairingPending` set, whatever `autoAcceptPairing` is,
`onSecParamsRequest` issues the single command `replySecParams` with status 0 and the
own params stored for the address (read in `s1`, the state after the peer params were
stored), or the adapter's default params when none are stored, and it emits no
DEVICE_SECURITY_REQUEST record. -/
theorem onSecParamsRequest_pending_reply (s s1 : AppState) (hw : Driver) (device : Device)
    (peerParams : SecurityParams) (adapter : Adapter) (record : AdapterRecord)
    (hrole : device.role = some "central")
    (hpending : device.ownPeriphInitiatedPairingPending = true)
    (hsel : s.adapter.api.selectedAdapter = some adapter)
    (hrec : selectedAdapterRecord s = some record) :
    (∀ secParameters ownParams,
      connectionsSecParameters s1 device.address = some secParameters →
      secParameters.ownParams = some ownParams →
      commands (onSecParamsRequest s s1 hw device peerParams).trace
        = [.replySecParams device.instanceId 0 (some ownParams)
            (some (secKeysetWithPk hw.computePublicKey))]) ∧
    ((connectionsSecParameters s1 device.address = none ∨
        ∃ secParameters, connectionsSecParameters s1 device.address = some secParameters ∧
          secParameters.ownParams = none) →
      commands (onSecParamsRequest s s1 hw device peerParams).trace
        = [.replySecParams device.instanceId 0 record.security.securityParams
            (some (secKeysetWithPk hw.computePublicKey))]) ∧
    recordsOfType "DEVICE_SECURITY_REQUEST"
      (onSecParamsRequest s s1 hw device peerParams).trace = [] := by
  refine ⟨?_, ?_, ?_⟩
  · intro sp own hsp hown
    cases herr : hw.replySecParams <;>
      simp [onSecParamsRequest, hrole, hpending, hsel, hrec, hsp, hown, herr,
        replySecParamsFailed, Run.emit, commands]
  · rintro (hnone | ⟨sp, hsp, hown⟩)
    · cases herr : hw.replySecParams <;>
        simp [onSecParamsRequest, hrole, hpending, hsel, hrec, hnone, herr,
          replySecParamsFailed, Run.emit, commands]
    · cases herr : hw.replySecParams <;>
        simp [onSecParamsRequest, hrole, hpending, hsel, hrec, hsp, hown, herr,
          replySecParamsFailed, Run.emit, commands]
  · cases herr : hw.replySecParams <;>
      cases hl : connectionsSecParameters s1 device.address <;>
      simp [onSecParamsRequest, hrole, hpending, hsel, hrec, hl, herr,
        replySecParamsFailed, Run.emit, recordsOfType, records, Action.type]

/-- The theorem `onSecParamsRequest_pending_reply` in a state that stores nothing for
the device's address: the reply carries the adapter's default params. -/
theorem onSecParamsRequest_pending_reply_witness :
    sampleCentralPending.role = some "central" ∧
    sampleCentralPending.ownPeriphInitiatedPairingPending = true ∧
    stateSelected.adapter.api.selectedAdapter = some sampleAdapter ∧
    connectionsSecParameters stateSelected sampleCentralPending.address = none ∧
    commands (onSecParamsRequest stateSelected stateSelected driverOk sampleCentralPending
        sampleSecurityParams).trace
      = [.replySecParams "conn-4" 0 (some sampleSecurityParams)
          (some (secKeysetWithPk [6]))] :=
  ⟨rfl, rfl, rfl, by decide,
   (onSecParamsRequest_pending_reply stateSelected stateSelected driverOk
      sampleCentralPending sampleSecurityParams sampleAdapter
      { security := (sampleSecurity []) } rfl rfl rfl rfl).2.1 (Or.inl (by decide))⟩

/-! ## Properties of `onSecInfoRequest` -/

/-- C24 (the claim as stated fails): with no adapter selected `onSecInfoRequest`
throws on `adapterToUse.secInfoReply`; no `secInfoReply` command is issued. -/
theorem onSecInfoRequest_no_adapter :
    stateEmpty.adapter.api.selectedAdapter = none ∧
    onSecInfoRequest stateEmpty driverOk samplePeripheral
      = { trace := [],
          outcome := .raised (.typeError "Cannot read property 'secInfoReply' of null") } := by
  decide

/-- C24 (amended): with an adapter selected, `onSecInfoRequest` issues the single
command `secInfoReply`: with null encryption info and null identity info when the bond
store has no entry for the device's address, in which case a
DEVICE_AUTH_ERROR_OCCURED record is emitted only when the hardware reply fails; and
with the stored `keys_own` encryption info and identity info when the bond store has
an entry that holds both keys. -/
theorem onSecInfoRequest_reply (s : AppState) (hw : Driver) (device : Device)
    (adapter : Adapter)
    (hsel : s.adapter.api.selectedAdapter = some adapter) :
    (bondStore s device.address = none →
      commands (onSecInfoRequest s hw device).trace
        = [.secInfoReply device.instanceId none none] ∧
      (hw.secInfoReply = none →
        recordsOfType "DEVICE_AUTH_ERROR_OCCURED" (onSecInfoRequest s hw device).trace = []) ∧
      (∀ message, hw.secInfoReply = some message →
        records (onSecInfoRequest s hw device).trace
          = [.deviceAuthErrorOccuredAction device])) ∧
    (∀ bondInfo keys encKey idKey,
      bondStore s device.address = some bondInfo → bondInfo.keys_own = some keys →
      keys.enc_key = some encKey → keys.id_key = some idKey →
      commands (onSecInfoRequest s hw device).trace
        = [.secInfoReply device.instanceId (some encKey.enc_info) (some idKey.id_info)]) := by
  constructor
  · intro hnone
    cases herr : hw.secInfoReply <;>
      simp [onSecInfoRequest, hsel, hnone, herr, Run.emit, commands, recordsOfType, records,
        Action.type]
  · intro bondInfo keys encKey idKey hb hk he hi
    cases herr : hw.secInfoReply <;>
      simp [onSecInfoRequest, hsel, hb, hk, he, hi, herr, encKeyOf, Run.emit, commands]

/-- The theorem `onSecInfoRequest_reply` for a device without a bond
(`stateSelected`) and for a bonded device (`stateBonded`). -/
theorem onSecInfoRequest_reply_witness :
    stateSelected.adapter.api.selectedAdapter = some sampleAdapter ∧
    bondStore stateSelected samplePeripheral.address = none ∧
    (onSecInfoRequest stateSelected driverOk samplePeripheral).trace
      = [.command sampleAdapter (.secInfoReply "conn-1" none none)] ∧
    commands (onSecInfoRequest (stateBonded sampleKeyset) driverOk samplePeripheral).trace
      = [.secInfoReply "conn-1" (some { ltk := [1, 2, 3], lesc := true, auth := true })
          (some [4, 5])] :=
  ⟨rfl, by decide, by decide,
   (onSecInfoRequest_reply (stateBonded sampleKeyset) driverOk samplePeripheral
      sampleAdapter rfl).2 sampleKeyset _ _ _ (by decide) rfl rfl rfl⟩

/-! ## Properties of `onConnParamUpdate` -/

/-- C25 (the claim as stated fails): the DEVICE_CONNECTION_PARAM_UPDATE_STATUS record
of `onConnParamUpdate` carries the number -1 as its status (and as its id), not the
member SUCCESS of the status enumeration. -/
theorem onConnParamUpdate_status_not_success :
    sampleCentral.role = some "central" ∧
    stateWithStoredParams.adapter.autoConnUpdate = false ∧
    records (onConnParamUpdate stateWithStoredParams sampleCentral sampleRequest).trace
      = [.deviceConnParamUpdateRequestAction sampleCentral sampleRequest,
         .connectionParamUpdateStatusAction (-1) sampleCentral (.number (-1)),
         .connectionParamsUpdatedAction sampleCentral] ∧
    recordsOfType "DEVICE_CONNECTION_PARAM_UPDATE_STATUS"
        (onConnParamUpdate stateWithStoredParams sampleCentral sampleRequest).trace
      ≠ [.connectionParamUpdateStatusAction (-1) sampleCentral (.state .SUCCESS)] := by
  decide

/-- C25 (amended): for every device, connection params and state, the trace of
`onConnParamUpdate` ends with a DEVICE_CONNECTION_PARAM_UPDATE_STATUS record whose id
and status are both the number -1, followed by a DEVICE_CONNECTION_PARAMS_UPDATED
record for the device; these two are preceded by a
DEVICE_CONNECTION_PARAM_UPDATE_REQUEST record exactly when the device role is central
and `autoConnUpdate` is off, and by nothing otherwise. -/
theorem onConnParamUpdate_trace (s : AppState) (device : Device)
    (connectionParams : ConnectionParams) :
    (onConnParamUpdate s device connectionParams).outcome = .value () ∧
    ((device.role = some "central" ∧ s.adapter.autoConnUpdate = false) →
      (onConnParamUpdate s device connectionParams).trace
        = [.dispatch (.deviceConnParamUpdateRequestAction device connectionParams),
           .dispatch (.connectionParamUpdateStatusAction (-1) device (.number (-1))),
           .dispatch (.connectionParamsUpdatedAction device)]) ∧
    (¬ (device.role = some "central" ∧ s.adapter.autoConnUpdate = false) →
      (onConnParamUpdate s device connectionParams).trace
        = [.dispatch (.connectionParamUpdateStatusAction (-1) device (.number (-1))),
           .dispatch (.connectionParamsUpdatedAction device)]) := by
  refine ⟨rfl, ?_, ?_⟩
  · intro h
    simp [onConnParamUpdate, h, Run.emit]
  · intro h
    simp [onConnParamUpdate, h, Run.emit]

/-! ## Properties of `onDeviceConnected` -/

/-- C26 (the code diverges from the claim): with an adapter selected, for a peripheral
whose bond info has no lesc flag in `keys_own` and no encryption key in `keys_peer`,
`onDeviceConnected` throws on `.toJS()` before anything is emitted: no
DEVICE_CONNECTED record, no hand-off. In every other case the trace is as claimed:
without bond info, or for a role other than peripheral, the DEVICE_CONNECTED record
and the hand-off alone; with bond info that holds the key selected by the lesc flag,
the `encrypt` command with that key first, whatever the hardware answers. -/
theorem onDeviceConnected_missing_key :
    ((stateBonded legacyKeysetNoPeerKey).adapter.api.selectedAdapter = some sampleAdapter ∧
     samplePeripheral.role = some "peripheral" ∧
     bondStore (stateBonded legacyKeysetNoPeerKey) samplePeripheral.address
       = some legacyKeysetNoPeerKey ∧
     onDeviceConnected (stateBonded legacyKeysetNoPeerKey) samplePeripheral
       = { trace := [],
           outcome := .raised (.typeError "Cannot read property 'toJS' of undefined") }) ∧
    ∀ (s : AppState) (device : Device) (adapter : Adapter),
      s.adapter.api.selectedAdapter = some adapter →
      ((device.role ≠ some "peripheral" ∨ bondStore s device.address = none) →
        (onDeviceConnected s device).trace
          = [.dispatch (.deviceConnectedAction device),
             .dispatch (.discoverServices device)]) ∧
      (∀ bondInfo own,
        device.role = some "peripheral" → bondStore s device.address = some bondInfo →
        encKeyOf bondInfo.keys_own = some own → own.enc_info.lesc = true →
        (onDeviceConnected s device).trace
          = [.command adapter (.encrypt device.instanceId own.master_id own.enc_info),
             .dispatch (.deviceConnectedAction device),
             .dispatch (.discoverServices device)]) ∧
      (∀ bondInfo peer,
        device.role = some "peripheral" → bondStore s device.address = some bondInfo →
        (∀ own, encKeyOf bondInfo.keys_own = some own → own.enc_info.lesc = false) →
        encKeyOf bondInfo.keys_peer = some peer →
        (onDeviceConnected s device).trace
          = [.command adapter (.encrypt device.instanceId peer.master_id peer.enc_info),
             .dispatch (.deviceConnectedAction device),
             .dispatch (.discoverServices device)]) := by
  refine ⟨by decide, ?_⟩
  intro s device adapter hsel
  refine ⟨?_, ?_, ?_⟩
  · rintro (hr | hb)
    · simp [onDeviceConnected, hsel, hr, Run.emit]
    · by_cases hr : device.role = some "peripheral" <;>
        simp [onDeviceConnected, hsel, hr, hb, Run.emit]
  · intro bondInfo own hr hb ho hl
    simp [onDeviceConnected, hsel, hr, hb, ho, hl, Run.emit]
  · intro bondInfo peer hr hb ho hp
    cases hown : encKeyOf bondInfo.keys_own with
    | none => simp [onDeviceConnected, hsel, hr, hb, hown, hp, Run.emit]
    | some own =>
      have := ho own hown
      simp [onDeviceConnected, hsel, hr, hb, hown, hp, this, Run.emit]

/-! ## Properties of `onLescDhkeyRequest` -/

/-- C27 (the claim as stated fails): with no adapter selected `onLescDhkeyRequest`
throws on `adapterToUse.computeSharedSecret`; no `replyLescDhkey` command is issued and
no record is emitted. -/
theorem onLescDhkeyRequest_no_adapter :
    stateUnselected.adapter.api.selectedAdapter = none ∧
    onLescDhkeyRequest stateUnselected driverOk sampleCentral [1, 2, 3] true
      = { trace := [],
          outcome :=
            .raised (.typeError "Cannot read property 'computeSharedSecret' of null") } := by
  decide

/-- C27 (amended): with an adapter selected, for every device and peer public key
`onLescDhkeyRequest` issues `replyLescDhkey` once and `getLescOobData` once, whatever
either call answers; it emits a DEVICE_LESC_OOB_REQUEST record, carrying the computed
own OOB data, exactly when `getLescOobData` succeeded and OOB data was flagged as
required; a failure of either call emits a DEVICE_AUTH_ERROR_OCCURED record for the
device, and no such record is emitted when both succeed. -/
theorem onLescDhkeyRequest_replies (s : AppState) (hw : Driver) (device : Device)
    (peerPublicKey : List Nat) (oobdRequired : Bool) (adapter : Adapter)
    (hsel : s.adapter.api.selectedAdapter = some adapter) :
    commands (onLescDhkeyRequest s hw device peerPublicKey oobdRequired).trace
      = [.replyLescDhkey device.instanceId (hw.computeSharedSecret peerPublicKey),
         .getLescOobData device.instanceId hw.computePublicKey] ∧
    (∀ ownOobData, hw.getLescOobData = .ok ownOobData → oobdRequired = true →
      recordsOfType "DEVICE_LESC_OOB_REQUEST"
          (onLescDhkeyRequest s hw device peerPublicKey oobdRequired).trace
        = [.lescOobRequestAction device ownOobData]) ∧
    (((∃ message, hw.getLescOobData = .error message) ∨ oobdRequired = false) →
      recordsOfType "DEVICE_LESC_OOB_REQUEST"
          (onLescDhkeyRequest s hw device peerPublicKey oobdRequired).trace = []) ∧
    (((∃ message, hw.replyLescDhkey = some message) ∨
        ∃ message, hw.getLescOobData = .error message) →
      Action.deviceAuthErrorOccuredAction device
        ∈ records (onLescDhkeyRequest s hw device peerPublicKey oobdRequired).trace) ∧
    ((hw.replyLescDhkey = none ∧ ∃ ownOobData, hw.getLescOobData = .ok ownOobData) →
      recordsOfType "DEVICE_AUTH_ERROR_OCCURED"
          (onLescDhkeyRequest s hw device peerPublicKey oobdRequired).trace = []) := by
  cases hr : hw.replyLescDhkey <;> cases ho : hw.getLescOobData <;> cases oobdRequired <;>
    simp [onLescDhkeyRequest, hsel, hr, ho, Run.emit, commands, recordsOfType, records,
      Action.type]

/-- The theorem `onLescDhkeyRequest_replies` for a driver whose `getLescOobData`
fails: the DH key reply is issued all the same. -/
theorem onLescDhkeyRequest_replies_witness :
    stateSelected.adapter.api.selectedAdapter = some sampleAdapter ∧
    driverOobFails.getLescOobData = .error "NRF_ERROR_INVALID_STATE" ∧
    commands (onLescDhkeyRequest stateSelected driverOobFails sampleCentral [1, 2, 3]
        true).trace
      = [.replyLescDhkey "conn-2" [], .getLescOobData "conn-2" [6]] :=
  ⟨rfl, rfl,
   (onLescDhkeyRequest_replies stateSelected driverOobFails sampleCentral [1, 2, 3] true
      sampleAdapter rfl).1⟩

/-! ## Properties of the discovery reducer on rediscovery and connection status -/

/-- C28: for every discovery state with an empty filter string in which the address
of the discovered device has a stored record, reducing DEVICE_DISCOVERED returns a
state whose entry for that address keeps the stored `isExpanded` flag, keeps the stored
name when that is non-empty and the new name is empty, and keeps the stored service
list when that is non-empty and the new list is empty. The `sort` of the ordered map,
which is not among the sources, is taken to keep what each address maps to. -/
theorem discovery_rediscovered_keeps (env : Discovery.Env)
    (state : Discovery.DiscoveryState) (device : Device)
    (existing : Discovery.DiscoveredDevice)
    (hfilter : state.options.filterString = "")
    (hsort : ∀ cmp devices address,
      (env.sort cmp devices).lookup address = devices.lookup address)
    (hstored : state.devices.lookup device.address = some (.record existing)) :
    ∃ state1 entry,
      Discovery.discovery env state (.deviceDiscoveredAction device) = .value state1 ∧
      state1.devices.lookup device.address = some (.record entry) ∧
      entry.isExpanded = existing.isExpanded ∧
      (existing.name ≠ "" → device.name = "" → entry.name = existing.name) ∧
      (existing.services ≠ [] → device.services = [] →
        entry.services = existing.services) := by
  have hrun : Discovery.discovery env state (.deviceDiscoveredAction device)
      = Discovery.deviceDiscovered env state device := rfl
  rw [hrun]
  simp only [Discovery.deviceDiscovered, hstored]
  refine applyFilters_setEntry env state device.address _ hfilter hsort
    (fun entry => entry.isExpanded = existing.isExpanded ∧
      (existing.name ≠ "" → device.name = "" → entry.name = existing.name) ∧
      (existing.services ≠ [] → device.services = [] →
        entry.services = existing.services)) ⟨rfl, ?_, ?_⟩
  · intro hn hd
    by_cases hsv : 0 < existing.services.length ∧ device.services = [] <;>
      simp [hn, hd, hsv]
  · intro hsv hd
    have hlen : existing.services.length > 0 := List.length_pos.mpr hsv
    simp [hlen, hd]

/-- The theorem `discovery_rediscovered_keeps` for the stored device `Thingy` seen
again without a name and without services: name, services and the `isExpanded` flag
are those of the stored record. -/
theorem discovery_rediscovered_keeps_witness :
    stateConnecting.options.filterString = "" ∧
    stateConnecting.devices.lookup sampleRediscovered.address
      = some (.record sampleDiscovered) ∧
    sampleRediscovered.name = "" ∧ sampleRediscovered.services = [] ∧
    ∃ state1 entry,
      Discovery.discovery sampleEnv stateConnecting (.deviceDiscoveredAction sampleRediscovered)
        = .value state1 ∧
      state1.devices.lookup sampleRediscovered.address = some (.record entry) ∧
      entry.isExpanded = sampleDiscovered.isExpanded ∧
      (sampleDiscovered.name ≠ "" → sampleRediscovered.name = "" →
        entry.name = sampleDiscovered.name) ∧
      (sampleDiscovered.services ≠ [] → sampleRediscovered.services = [] →
        entry.services = sampleDiscovered.services) :=
  ⟨rfl, by decide, rfl, rfl,
   discovery_rediscovered_keeps sampleEnv stateConnecting sampleRediscovered sampleDiscovered
     rfl (fun _ _ _ => rfl) (by decide)⟩

/-- C29 (the code diverges from the claim): reducing DEVICE_CONNECT_TIMEOUT for an
address that has no entry creates one, a plain map holding only `isConnecting: false`;
`deviceConnectTimeout` has no test for the entry. Reducing DEVICE_CONNECT,
DEVICE_CONNECTED or DEVICE_DISCONNECTED for an absent address returns the state
unchanged, as claimed: those three test for the entry first. -/
theorem discovery_connect_timeout_creates_entry :
    (Discovery.initialState.devices.lookup sampleDeviceAddress.address = none ∧
     Discovery.discovery sampleEnv Discovery.initialState
        (.deviceConnectTimeoutAction sampleDeviceAddress)
       = .value { Discovery.initialState with
           devices := [("C0:FF:EE:00:00:02", .map (some false) none)] }) ∧
    ∀ (env : Discovery.Env) (state : Discovery.DiscoveryState) (device : Device)
      (reason : Option String),
      state.devices.lookup device.address = none →
      Discovery.discovery env state (.deviceConnectAction device) = .value state ∧
      Discovery.discovery env state (.deviceConnectedAction device) = .value state ∧
      Discovery.discovery env state (.deviceDisconnectedAction device reason)
        = .value state := by
  refine ⟨by decide, ?_⟩
  intro env state device reason h
  simp [Discovery.discovery, Discovery.deviceConnect, Discovery.deviceConnected,
    Discovery.deviceDisconnected, h]

/-! ## Properties of the keypress records -/

/-- C30 (the code diverges from the claim): `sendKeypress` called for a pairing event
whose `keypressStartSent` is already true, and asked to send PASSKEY_DIGIT_IN, sends no
PASSKEY_START notification and still emits a DEVICE_PASSKEY_KEYPRESS_SENT record of
type PASSKEY_START: the record is dispatched in the `then` without a test of the flag.
In `replyAuthKey` the record of type PASSKEY_END is emitted only when the flag was
true and the PASSKEY_END notification, the first effect of the run, completed without
error. -/
theorem sendKeypress_start_record_without_command :
    (keypressStartSent stateKeypressStarted 4 = some true ∧
     (sendKeypress stateKeypressStarted driverOk 4 sampleCentral
        "BLE_GAP_KP_NOT_TYPE_PASSKEY_DIGIT_IN").trace
       = [.dispatch (.keypressSentAction 4 sampleCentral "BLE_GAP_KP_NOT_TYPE_PASSKEY_START"),
          .command sampleAdapter (.notifyKeypress "conn-2" .PASSKEY_DIGIT_IN),
          .dispatch (.keypressSentAction 4 sampleCentral
            "BLE_GAP_KP_NOT_TYPE_PASSKEY_DIGIT_IN")] ∧
     Command.notifyKeypress "conn-2" .PASSKEY_START
       ∉ commands (sendKeypress stateKeypressStarted driverOk 4 sampleCentral
          "BLE_GAP_KP_NOT_TYPE_PASSKEY_DIGIT_IN").trace) ∧
    ∀ (s : AppState) (hw : Driver) (id : Int) (device : Device) (keyType key : Option String)
      (adapter : Adapter),
      s.adapter.api.selectedAdapter = some adapter →
      ((keypressStartSent s id = some true ∧ hw.notifyKeypress = none) →
        ∃ rest, (replyAuthKey s hw id device keyType key).trace
          = .command adapter (.notifyKeypress device.instanceId .PASSKEY_END) ::
            .dispatch (.keypressSentAction id device "BLE_GAP_KP_NOT_TYPE_PASSKEY_END") ::
            rest ∧
          recordsOfType "DEVICE_PASSKEY_KEYPRESS_SENT" rest = []) ∧
      (¬ (keypressStartSent s id = some true ∧ hw.notifyKeypress = none) →
        recordsOfType "DEVICE_PASSKEY_KEYPRESS_SENT"
          (replyAuthKey s hw id device keyType key).trace = []) := by
  refine ⟨by decide, ?_⟩
  intro s hw id device keyType key adapter hsel
  constructor
  · rintro ⟨hflag, hn⟩
    cases hr : hw.replyAuthKey <;>
      simp [replyAuthKey, replyAuthenticationKey, hsel, hflag, hn, hr, callAdapter,
        Run.then_, Run.catch_, Run.emit, Run.pure, recordsOfType, records, Action.type,
        -List.filter_eq_nil_iff, List.filter_cons]
  · intro hnot
    by_cases hflag : keypressStartSent s id = some true
    · have hn : hw.notifyKeypress ≠ none := fun h => hnot ⟨hflag, h⟩
      obtain ⟨message, hm⟩ := Option.ne_none_iff_exists'.mp hn
      simp [replyAuthKey, replyAuthenticationKey, hsel, hflag, hm, callAdapter,
        Run.then_, Run.catch_, Run.emit, Run.pure, recordsOfType, records, Action.type,
        -List.filter_eq_nil_iff, List.filter_cons]
    · cases hr : hw.replyAuthKey <;>
        simp [replyAuthKey, replyAuthenticationKey, hsel, hflag, hr, callAdapter,
          Run.then_, Run.catch_, Run.emit, Run.pure, recordsOfType, records, Action.type,
          -List.filter_eq_nil_iff, List.filter_cons]

end AdapterActions
